import Mathlib

/-!
Verification development for the AgenticChessCoach pipeline.

The TypeScript sources are shallowly embedded below:
  * `src/lib/schemas.ts`                         — document schemas and constructors
  * `src/lib/workflows/analyze-game.ts`          — per-game analysis workflow
  * `src/lib/workflows/synthesize-user-analysis.ts` — synthesis workflow
  * `src/lib/workflows/lookalike-games.ts`       — look-alike correlation workflow
  * `src/app/api/games/route.ts` and the unnamed analyze route — balanced game selection

MongoDB is modelled as an in-memory list of documents; `updateOne` with
`upsert: true` updates the first matching document or appends.  Wall-clock
values (`new Date()`) are passed in as explicit `now : Nat` parameters.
External services (Lichess HTTP responses, Gemini replies) are passed in as
explicit data so the control flow that reacts to them is the code under
verification.
-/

/-! ## JavaScript string primitives

In the source, usernames flow through `.toLowerCase()` and `.trim()`.
We embed strings as Lean `String` (a wrapper around `List Char` in this
toolchain) and model the two operations character-exactly for the ASCII
range the code relies on. -/

/-- Model of JavaScript `toLowerCase` on one character: ASCII `A`–`Z`
(code points 65–90) map to `a`–`z` (add 32), everything else is unchanged. -/
def jsLowerChar (c : Char) : Char :=
  if h : 65 ≤ c.toNat ∧ c.toNat ≤ 90 then
    Char.ofNatAux (c.toNat + 32) (Or.inl (by omega))
  else c

/-- Model of JavaScript `String.prototype.toLowerCase`. -/
def jsLower (s : String) : String :=
  ⟨s.data.map jsLowerChar⟩

/-- Whitespace test used by the model of `trim` (space, tab, LF, CR). -/
def isWs (c : Char) : Bool :=
  c.toNat = 32 || c.toNat = 9 || c.toNat = 10 || c.toNat = 13

/-- Drop whitespace from both ends of a character list. -/
def trimData (l : List Char) : List Char :=
  ((l.dropWhile isWs).reverse.dropWhile isWs).reverse

/-- Model of JavaScript `String.prototype.trim`. -/
def jsTrim (s : String) : String :=
  ⟨trimData s.data⟩

/-- JavaScript `x || undefined` for a string `x`: the empty string is falsy. -/
def strOrNone (s : String) : Option String :=
  if s = "" then none else some s

/-- JavaScript `x || undefined` for a possibly-absent string `x`. -/
def optStrOrNone (s : Option String) : Option String :=
  match s with
  | none => none
  | some s => strOrNone s

/-- JavaScript `x || ""` for a possibly-absent string. -/
def optStr (s : Option String) : String :=
  match s with
  | none => ""
  | some s => s

/-- Check from several steps: `!username || username.trim().length === 0`. -/
def invalidUsername (u : String) : Bool :=
  u = "" || (jsTrim u).data.length = 0

theorem toNat_jsLowerChar (c : Char) :
    (jsLowerChar c).toNat =
      if 65 ≤ c.toNat ∧ c.toNat ≤ 90 then c.toNat + 32 else c.toNat := by
  unfold jsLowerChar
  split
  · simp [Char.ofNatAux, Char.toNat, UInt32.toNat, BitVec.toNat_ofNatLt]
  · rfl

/-! ## Data model (`src/lib/schemas.ts`)

Dates are modelled as `Nat` millisecond timestamps; MongoDB `undefined`
(field absent) is modelled as `none`. -/

/-- Players block of a Lichess game (names and ratings, all optional). -/
structure Players where
  whiteName : Option String
  whiteRating : Option Nat
  blackName : Option String
  blackRating : Option Nat
deriving DecidableEq, Repr

/-- The AI-analysis subdocument of `GameAnalysisDocument`, including the
fields added later by the look-alike stage. -/
structure GameAnalysis where
  finalAnalysis : Option String
  detailedAnalysis : Option String
  opening : Option String
  concepts : Option (List String)
  isRepresentative : Option Bool
  original : Option Bool
  isValidLookAlike : Option Bool
  thematicMatch : Option String
  matchedOriginalGameIds : Option (List String)
  thematicConnections : Option String
  analyzedAt : Option Nat
deriving DecidableEq, Repr

/-- The processed game object handed to `createGameAnalysisDocument`
(the `game: any` parameter built by the games route). -/
structure RawGame where
  id : String
  rated : Bool
  variant : String
  speed : String
  perf : String
  createdAt : Nat
  lastMoveAt : Nat
  status : String
  winner : Option String
  players : Players
  opening : Option String
  userColor : String
  opponentRating : Option Nat
  ratingDiff : Option Nat
  duration : Option Nat
  result : String
deriving DecidableEq, Repr

/-- A stored `GameAnalysisDocument`. -/
structure GameDoc where
  gameId : String
  username : String
  rated : Bool
  variant : String
  speed : String
  perf : String
  createdAt : Nat
  lastMoveAt : Nat
  status : String
  winner : Option String
  players : Players
  opening : Option String
  userColor : String
  userRating : Option Nat
  opponentRating : Option Nat
  ratingDiff : Nat
  duration : Nat
  result : String
  analysis : Option GameAnalysis
  pgn : Option String
  storedAt : Nat
  updatedAt : Option Nat
deriving DecidableEq, Repr

/-- Analysis fields accepted by `createGameAnalysisDocument` (the runtime
object also carries `original`, spread into the stored subdocument). -/
structure AnalysisInput where
  finalAnalysis : Option String
  detailedAnalysis : Option String
  opening : Option String
  concepts : Option (List String)
  isRepresentative : Option Bool
  original : Option Bool
deriving DecidableEq, Repr

/-- Embedding of `createGameAnalysisDocument` from `src/lib/schemas.ts`. -/
def createGameAnalysisDocument (game : RawGame) (username : String)
    (analysis : Option AnalysisInput) (pgn : Option String) (now : Nat) : GameDoc :=
  { gameId := game.id
    username := jsLower username
    rated := game.rated
    variant := game.variant
    speed := game.speed
    perf := game.perf
    createdAt := game.createdAt
    lastMoveAt := game.lastMoveAt
    status := game.status
    winner := game.winner
    players := game.players
    opening := game.opening
    userColor := game.userColor
    userRating :=
      if game.userColor = "white" then game.players.whiteRating
      else game.players.blackRating
    opponentRating := game.opponentRating
    ratingDiff := game.ratingDiff.getD 0
    duration := game.duration.getD 0
    result := game.result
    analysis := analysis.map (fun a =>
      { finalAnalysis := a.finalAnalysis
        detailedAnalysis := a.detailedAnalysis
        opening := a.opening
        concepts := a.concepts
        isRepresentative := a.isRepresentative
        original := a.original
        isValidLookAlike := none
        thematicMatch := none
        matchedOriginalGameIds := none
        thematicConnections := none
        analyzedAt := some now })
    pgn := pgn
    storedAt := now
    updatedAt := none }

/-! ## Game-analysis store operations -/

/-- A document satisfies the Mongo filter
`"analysis.finalAnalysis": { $exists: true, $ne: null }`. -/
def hasFinalAnalysis (d : GameDoc) : Bool :=
  (d.analysis.bind (fun a => a.finalAnalysis)).isSome

/-- Count of analyzed documents stored under the (already lowercased)
username key: the `countDocuments` query shared by several steps. -/
def countAnalyzedDocs (store : List GameDoc) (key : String) : Nat :=
  (store.filter (fun d => d.username = key && hasFinalAnalysis d)).length

/-- Count of analyzed documents that are flagged as baseline
(`analysis.original = true`), the measure used by the spec's
baseline invariant and read back by `getOriginalGames`. -/
def countBaselineDocs (store : List GameDoc) (key : String) : Nat :=
  (store.filter (fun d =>
    d.username = key && hasFinalAnalysis d
      && (d.analysis.bind (fun a => a.original) = some true))).length

/-- Embedding of the step `checkGamesCount` from
`src/lib/workflows/analyze-game.ts`. -/
def checkGamesCount (store : List GameDoc) (username : String) : Nat :=
  countAnalyzedDocs store (jsLower username)

/-- Mongo `updateOne(filter, { $set: doc }, { upsert: true })` where `doc`
assigns every field: replace the first document matching
`{ gameId, username }`, or append if none matches. -/
def upsertGame (store : List GameDoc) (gid un : String) (doc : GameDoc) :
    List GameDoc :=
  match store with
  | [] => [doc]
  | d :: ds =>
    if d.gameId = gid ∧ d.username = un then doc :: ds
    else d :: upsertGame ds gid un doc

/-- Analysis result produced by `analyzeGameWithGemini` (always a fully
populated object at this point in the flow). -/
structure AnalysisOutcome where
  finalAnalysis : String
  detailedAnalysis : Option String
  concepts : List String
  opening : Option String
  isRepresentative : Bool
deriving DecidableEq, Repr

/-- The document written by `saveAnalysisToMongoDB` (before the
`updatedAt` stamp applied by the `$set`). -/
def saveAnalysisDoc (game : RawGame) (username : String)
    (analysis : AnalysisOutcome) (pgn : String) (original : Bool) (now : Nat) :
    GameDoc :=
  createGameAnalysisDocument game username
    (some
      { finalAnalysis := strOrNone analysis.finalAnalysis
        detailedAnalysis := optStrOrNone analysis.detailedAnalysis
        opening := optStrOrNone analysis.opening
        concepts := if analysis.concepts.length > 0 then some analysis.concepts else none
        isRepresentative := some analysis.isRepresentative
        original := some original })
    (some pgn) now

/-- Embedding of the step `saveAnalysisToMongoDB` from
`src/lib/workflows/analyze-game.ts`: upsert keyed by
`{ gameId: game.id, username: username.toLowerCase() }`. -/
def saveAnalysisToMongoDB (store : List GameDoc) (game : RawGame)
    (username : String) (analysis : AnalysisOutcome) (pgn : String)
    (original : Bool) (now : Nat) : List GameDoc :=
  upsertGame store game.id (jsLower username)
    { saveAnalysisDoc game username analysis pgn original now with
        updatedAt := some now }

/-! ## Per-item analysis task (`src/lib/workflows/analyze-game.ts`) -/

/-- Errors thrown by workflow steps.  The `workflow` executor retries a
step that throws an ordinary error and gives up permanently on
`FatalError`; we keep both constructors so the fatal/transient
classification of each throw site is part of the embedding. -/
inductive WError where
  | fatal (msg : String)
  | transient (msg : String)
deriving DecidableEq, Repr

/-- An HTTP response as seen by `fetchPGN` (status plus body text). -/
structure HttpResponse where
  status : Nat
  body : String
deriving DecidableEq, Repr

/-- JavaScript `response.ok`: status in the 200–299 range. -/
def httpOk (r : HttpResponse) : Bool :=
  200 ≤ r.status && r.status ≤ 299

/-- Embedding of the step `fetchPGN`: every failure path throws
`FatalError` (including 429 and 5xx statuses). -/
def fetchPGN (gameId : String) (resp : HttpResponse) : Except WError String :=
  if gameId = "" || (jsTrim gameId).data.length = 0 then
    .error (.fatal "Invalid gameId provided to fetchPGN")
  else if !httpOk resp then
    if resp.status = 404 then
      .error (.fatal ("Game not found: " ++ gameId))
    else if resp.status = 429 then
      .error (.fatal "Rate limited by Lichess API")
    else
      .error (.fatal ("Failed to fetch PGN: " ++ toString resp.status))
  else if resp.body = "" || (jsTrim resp.body).data.length = 0 then
    .error (.fatal ("Empty PGN response for game " ++ gameId))
  else
    .ok resp.body

/-- Decide whether a `fetchPGN` outcome is a transient (retryable) error. -/
def isTransientError (r : Except WError String) : Bool :=
  match r with
  | .error (.transient _) => true
  | _ => false

/-- The JSON object the Gemini prompt asks for, with every field optional
because the oracle gives no format guarantee. -/
structure ParsedGameAnalysis where
  finalAnalysis : Option String
  detailedAnalysis : Option String
  concepts : Option (List String)
  opening : Option String
  isRepresentative : Option Bool
deriving DecidableEq, Repr

/-- Oracle reply as seen after `JSON.parse` is attempted on the response
text (with markdown fences already stripped): either it parsed to a
structured object, or parsing threw and only the raw text remains. -/
inductive GeminiReply where
  | parsed (p : ParsedGameAnalysis) (raw : String)
  | unparsed (raw : String)
deriving DecidableEq, Repr

/-- JavaScript `a || b` for two optional strings (empty string is falsy). -/
def jsOrStr (a : Option String) (b : String) : String :=
  match a with
  | some s => if s = "" then b else s
  | none => b

/-- Embedding of the step `analyzeGameWithGemini`: throws `FatalError`
only when the API key is missing; a response that fails to parse as JSON
degrades to the raw text instead of failing. -/
def analyzeGameWithGemini (apiKey : Option String) (reply : GeminiReply) :
    Except WError AnalysisOutcome :=
  match apiKey with
  | none => .error (.fatal "GEMINI_API_KEY is not set")
  | some _ =>
    match reply with
    | .parsed p raw =>
      .ok
        { finalAnalysis := jsOrStr p.finalAnalysis (jsOrStr p.detailedAnalysis raw)
          detailedAnalysis := optStrOrNone p.detailedAnalysis
          concepts := (p.concepts.getD []).take 5
          opening := optStrOrNone p.opening
          isRepresentative := p.isRepresentative.getD true }
    | .unparsed raw =>
      .ok
        { finalAnalysis := raw
          detailedAnalysis := none
          concepts := []
          opening := none
          isRepresentative := true }

/-- Input of `analyzeGameWorkflow`. -/
structure GameAnalysisInput where
  gameId : String
  username : String
  userColor : String
  game : RawGame
deriving DecidableEq, Repr

/-- Observable outcome of one `analyzeGameWorkflow` run. -/
structure AnalyzeRunOutcome where
  store : List GameDoc
  original : Bool
  gamesCountBefore : Nat
  gamesCountAfter : Nat
  triggeredLookAlike : Bool
deriving DecidableEq, Repr

/-- Embedding of `analyzeGameWorkflow`: fetch PGN, analyze, read the
analyzed-games count, decide `original` from that pre-persist count,
persist, re-read the count, and fire the downstream triggers.  The
Lichess response and the Gemini reply are explicit inputs; the store is a
snapshot that only this run mutates. -/
def analyzeGameWorkflow (store₀ : List GameDoc) (input : GameAnalysisInput)
    (resp : HttpResponse) (apiKey : Option String) (reply : GeminiReply)
    (now : Nat) : Except WError AnalyzeRunOutcome := do
  let pgn ← fetchPGN input.gameId resp
  let analysis ← analyzeGameWithGemini apiKey reply
  let gamesCountBefore := checkGamesCount store₀ input.username
  let original := gamesCountBefore < 10
  let store₁ := saveAnalysisToMongoDB store₀ input.game input.username analysis pgn original now
  let gamesCountAfter := checkGamesCount store₁ input.username
  .ok
    { store := store₁
      original := original
      gamesCountBefore := gamesCountBefore
      gamesCountAfter := gamesCountAfter
      triggeredLookAlike :=
        gamesCountAfter = 10 || (!original && gamesCountAfter > 10) }

/-! ## Interleaving model for concurrently completing analysis tasks

`analyzeGameWorkflow` performs a count read (`checkGamesCount`) and later
an upsert (`saveAnalysisToMongoDB`); many workflow instances run
concurrently against the shared store with no lock.  The machine below
lets each pending task take its read step and its write step in any
global order, which is exactly the read-decide-write window of the code. -/

/-- Static data of one pending analysis task (its oracle and Lichess
steps already resolved). -/
structure TaskSpec where
  game : RawGame
  username : String
  analysis : AnalysisOutcome
  pgn : String
  now : Nat
deriving DecidableEq, Repr

/-- Progress of one task through its count-read and persist steps. -/
inductive TaskPhase where
  | toRead
  | toWrite (original : Bool)
  | finished
deriving DecidableEq, Repr

/-- Shared store plus the per-task control points. -/
structure PipelineState where
  store : List GameDoc
  tasks : List (TaskSpec × TaskPhase)
deriving DecidableEq, Repr

/-- One scheduler choice: let task `i` run its read step or its write step. -/
inductive TaskAction where
  | read (i : Nat)
  | write (i : Nat)
deriving DecidableEq, Repr

/-- Execute one action; `none` when the chosen task is not at that step. -/
def applyAction (s : PipelineState) (a : TaskAction) : Option PipelineState :=
  match a with
  | .read i =>
    match s.tasks.get? i with
    | some (t, .toRead) =>
      some { s with
        tasks := s.tasks.set i (t, .toWrite (checkGamesCount s.store t.username < 10)) }
    | _ => none
  | .write i =>
    match s.tasks.get? i with
    | some (t, .toWrite b) =>
      some { store := saveAnalysisToMongoDB s.store t.game t.username t.analysis t.pgn b t.now
             tasks := s.tasks.set i (t, .finished) }
    | _ => none

/-- Run a whole schedule of actions. -/
def runActions (s : PipelineState) (acts : List TaskAction) : Option PipelineState :=
  match acts with
  | [] => some s
  | a :: rest =>
    match applyAction s a with
    | some s' => runActions s' rest
    | none => none

/-- Initial state: empty store, every task before its count read. -/
def initState (tasks : List TaskSpec) : PipelineState :=
  { store := [], tasks := tasks.map (fun t => (t, .toRead)) }

/-- Sequential (non-interleaved) effect of one whole task on the store:
read the count, decide `original`, persist. -/
def seqTaskStep (store : List GameDoc) (t : TaskSpec) : List GameDoc :=
  saveAnalysisToMongoDB store t.game t.username t.analysis t.pgn
    (checkGamesCount store t.username < 10) t.now

/-- Store after running tasks one at a time, each to completion. -/
def seqStore (store : List GameDoc) (todo : List TaskSpec) : List GameDoc :=
  todo.foldl seqTaskStep store

/-- Schedule that runs tasks `k, k+1, …, k+m-1` sequentially, each task
doing its read immediately followed by its write. -/
def seqActsFrom (k m : Nat) : List TaskAction :=
  match m with
  | 0 => []
  | m + 1 => .read k :: .write k :: seqActsFrom (k + 1) m

/-- Fixtures for the interleaving counterexample: a finished game. -/
def c2Game (gid : String) : RawGame :=
  { id := gid
    rated := true
    variant := "standard"
    speed := "blitz"
    perf := "blitz"
    createdAt := 0
    lastMoveAt := 1
    status := "mate"
    winner := some "white"
    players :=
      { whiteName := some "alice", whiteRating := some 1500
        blackName := some "bob", blackRating := some 1490 }
    opening := none
    userColor := "white"
    opponentRating := some 1490
    ratingDiff := some 10
    duration := some 1
    result := "win" }

/-- Fixtures: a successful analysis outcome with a nonempty summary. -/
def c2Outcome : AnalysisOutcome :=
  { finalAnalysis := "a"
    detailedAnalysis := none
    concepts := []
    opening := none
    isRepresentative := true }

/-- Eleven tasks for the same subject with distinct game ids. -/
def c2Tasks : List TaskSpec :=
  (List.range 11).map (fun i =>
    { game := c2Game ("g" ++ toString i)
      username := "alice"
      analysis := c2Outcome
      pgn := "1. e4"
      now := 0 })

/-- Racy schedule: all eleven tasks read the count first, then all write. -/
def c2Acts : List TaskAction :=
  (List.range 11).map .read ++ (List.range 11).map .write

/-! ## Synthesis stage (`src/lib/workflows/synthesize-user-analysis.ts`) -/

/-- JavaScript `split` on a character class: split at every matching
character, keeping empty pieces. -/
def splitList (p : Char → Bool) : List Char → List (List Char)
  | [] => [[]]
  | c :: cs =>
    let r := splitList p cs
    if p c then [] :: r
    else
      match r with
      | [] => [[c]]
      | h :: t => (c :: h) :: t

/-- The separator class `[•\n-]` used by `parseToArray`. -/
def jsBulletChar (c : Char) : Bool :=
  c = '•' || c = '\n' || c = '-'

/-- Model of JavaScript `substring(0, n)`. -/
def jsTake (s : String) (n : Nat) : String :=
  ⟨s.data.take n⟩

/-- Model of JavaScript `Math.round(sum / len)` on nonnegative integers:
round half up. -/
def jsRound (sum len : Nat) : Nat :=
  (2 * sum + len) / (2 * len)

/-- The seven qualitative fields returned by the synthesis oracle step. -/
structure SynthesisFields where
  overallStrengths : String
  recurringWeaknesses : String
  blindSpots : String
  learningPriorities : String
  playingStyle : String
  ratingAssessment : String
  keyInsights : String
deriving DecidableEq, Repr

/-- Optional shape of the parsed synthesis JSON. -/
structure ParsedSynthesis where
  overallStrengths : Option String
  recurringWeaknesses : Option String
  blindSpots : Option String
  learningPriorities : Option String
  playingStyle : Option String
  ratingAssessment : Option String
  keyInsights : Option String
deriving DecidableEq, Repr

/-- Synthesis oracle reply after the `JSON.parse` attempt. -/
inductive SynthReply where
  | parsed (p : ParsedSynthesis) (raw : String)
  | unparsed (raw : String)
deriving DecidableEq, Repr

/-- Embedding of `synthesizeUserAnalysisWithGemini`: fatal only on a
missing API key; a parse failure degrades to empty fields with the first
500 characters of the raw text as `keyInsights`. -/
def synthesizeUserAnalysisWithGemini (apiKey : Option String)
    (reply : SynthReply) : Except WError SynthesisFields :=
  match apiKey with
  | none => .error (.fatal "GEMINI_API_KEY is not set")
  | some _ =>
    match reply with
    | .parsed p _ =>
      .ok
        { overallStrengths := optStr p.overallStrengths
          recurringWeaknesses := optStr p.recurringWeaknesses
          blindSpots := optStr p.blindSpots
          learningPriorities := optStr p.learningPriorities
          playingStyle := optStr p.playingStyle
          ratingAssessment := optStr p.ratingAssessment
          keyInsights := optStr p.keyInsights }
    | .unparsed raw =>
      .ok
        { overallStrengths := ""
          recurringWeaknesses := ""
          blindSpots := ""
          learningPriorities := ""
          playingStyle := ""
          ratingAssessment := ""
          keyInsights := jsTake raw 500 }

/-- Result of the step `checkGamesWithAnalysis`. -/
structure CheckGamesResult where
  count : Nat
  games : List GameDoc
  isMultipleOfThree : Bool
deriving DecidableEq, Repr

/-- Embedding of the step `checkGamesWithAnalysis`. -/
def checkGamesWithAnalysis (store : List GameDoc) (username : String) :
    CheckGamesResult :=
  let gamesWithAnalysis :=
    store.filter (fun d => d.username = jsLower username && hasFinalAnalysis d)
  let count := gamesWithAnalysis.length
  { count := count
    games := gamesWithAnalysis
    isMultipleOfThree := 3 ≤ count && count % 3 = 0 }

/-- A stored `UserAnalysisDocument` (fields written by the workflow). -/
structure UserAnalysisDoc where
  username : String
  detailedAnalysis : String
  summaryAnalysis : String
  strengths : List String
  weaknesses : List String
  blindSpots : List String
  learningAreas : List String
  commonOpenings : Option (List String)
  commonConcepts : Option (List String)
  gamesAnalyzed : Nat
  gameIds : List String
  wins : Nat
  losses : Nat
  draws : Nat
  averageRating : Option Nat
  ratingRange : Option (Nat × Nat)
  updatedAt : Nat
  lastGameAnalyzedAt : Nat
  createdAt : Nat
deriving DecidableEq, Repr

/-- The helper `parseToArray` from `saveUserAnalysisToMongoDB`. -/
def parseToArray (value fallback : String) : List String :=
  if value = "" then (if fallback = "" then [] else [fallback])
  else
    ((((splitList jsBulletChar value.data).map
        (fun piece => (⟨trimData piece⟩ : String))).filter
        (fun s => s ≠ "")).take 10)

/-- Distinct elements in first-occurrence order (JavaScript object-key
insertion order for the frequency maps). -/
def firstOccurrences (l : List String) : List String :=
  l.foldl (fun acc c => if acc.contains c then acc else acc ++ [c]) []

/-- Stable insertion of `x` after every element `y` with `le y x`. -/
def insertSorted (le : α → α → Bool) (x : α) : List α → List α
  | [] => [x]
  | y :: ys => if le y x then y :: insertSorted le x ys else x :: y :: ys

/-- Stable sort (the contract of JavaScript `Array.prototype.sort` with a
consistent comparator), written structurally so it evaluates. -/
def stableSort (le : α → α → Bool) (l : List α) : List α :=
  l.foldl (fun acc x => insertSorted le x acc) []

/-- Top-`n` most frequent strings, ties kept in insertion order
(stable sort by descending count). -/
def topByFreq (l : List String) (n : Nat) : List String :=
  (stableSort (fun a b => l.count b ≤ l.count a) (firstOccurrences l)).take n

/-- The `userAnalysisDoc` object assembled inside
`saveUserAnalysisToMongoDB` (with `createdAt` as staged for insert). -/
def buildUserAnalysisDoc (username : String) (synthesis : SynthesisFields)
    (gamesAnalyzed : Nat) (games : List GameDoc) (now : Nat) : UserAnalysisDoc :=
  let wins := (games.filter (fun g => g.result = "win")).length
  let losses := (games.filter (fun g => g.result = "loss")).length
  let draws := (games.filter (fun g => g.result = "draw")).length
  let ratings := games.filterMap (fun g => g.userRating)
  let averageRating :=
    match ratings with
    | [] => none
    | _ => some (jsRound ratings.sum ratings.length)
  let ratingRange :=
    match ratings with
    | [] => none
    | r :: rs => some (rs.foldl Nat.min r, rs.foldl Nat.max r)
  let openings :=
    (games.filterMap (fun g => g.analysis.bind (fun a => a.opening))).filter
      (fun o => o ≠ "")
  let allConcepts :=
    ((games.map (fun g => (g.analysis.bind (fun a => a.concepts)).getD [])).flatten).filter
      (fun c => c ≠ "")
  let commonConcepts := topByFreq allConcepts 10
  let commonOpenings := topByFreq openings 5
  let strengths := parseToArray synthesis.overallStrengths synthesis.overallStrengths
  let weaknesses := parseToArray synthesis.recurringWeaknesses synthesis.recurringWeaknesses
  let blindSpotsArr := parseToArray synthesis.blindSpots synthesis.blindSpots
  let learningAreas := parseToArray synthesis.learningPriorities synthesis.learningPriorities
  { username := jsLower username
    detailedAnalysis :=
      synthesis.overallStrengths ++ "\n\n" ++ synthesis.recurringWeaknesses ++ "\n\n"
        ++ synthesis.blindSpots ++ "\n\n" ++ synthesis.learningPriorities ++ "\n\n"
        ++ synthesis.playingStyle ++ "\n\n" ++ synthesis.ratingAssessment
    summaryAnalysis := synthesis.keyInsights
    strengths :=
      if strengths.length > 0 then strengths
      else if synthesis.overallStrengths ≠ "" then [synthesis.overallStrengths] else []
    weaknesses :=
      if weaknesses.length > 0 then weaknesses
      else if synthesis.recurringWeaknesses ≠ "" then [synthesis.recurringWeaknesses] else []
    blindSpots :=
      if blindSpotsArr.length > 0 then blindSpotsArr
      else if synthesis.blindSpots ≠ "" then [synthesis.blindSpots] else []
    learningAreas :=
      if learningAreas.length > 0 then learningAreas
      else if synthesis.learningPriorities ≠ "" then [synthesis.learningPriorities] else []
    commonOpenings := if commonOpenings.length > 0 then some commonOpenings else none
    commonConcepts := if commonConcepts.length > 0 then some commonConcepts else none
    gamesAnalyzed := gamesAnalyzed
    gameIds := games.map (fun g => g.gameId)
    wins := wins
    losses := losses
    draws := draws
    averageRating := averageRating
    ratingRange := ratingRange
    updatedAt := now
    lastGameAnalyzedAt := now
    createdAt := now }

/-- Mongo `updateOne({ username }, { $set: doc, $setOnInsert: { createdAt } },
{ upsert: true })`: replace the first matching profile keeping its
`createdAt`, or append. -/
def upsertUser (store : List UserAnalysisDoc) (un : String)
    (doc : UserAnalysisDoc) : List UserAnalysisDoc :=
  match store with
  | [] => [doc]
  | d :: ds =>
    if d.username = un then { doc with createdAt := d.createdAt } :: ds
    else d :: upsertUser ds un doc

/-- Embedding of the step `saveUserAnalysisToMongoDB`. -/
def saveUserAnalysisToMongoDB (ustore : List UserAnalysisDoc)
    (username : String) (synthesis : SynthesisFields) (gamesAnalyzed : Nat)
    (games : List GameDoc) (now : Nat) : List UserAnalysisDoc :=
  upsertUser ustore (jsLower username)
    (buildUserAnalysisDoc username synthesis gamesAnalyzed games now)

/-- Result of one `synthesizeUserAnalysisWorkflow` run. -/
inductive SynthRunResult where
  | insufficientGames (gamesWithAnalysis : Nat)
  | notMultipleOfThree (gamesWithAnalysis : Nat)
  | fatalError (msg : String)
  | success (username : String) (gamesAnalyzed : Nat)
deriving DecidableEq, Repr

/-- Embedding of `synthesizeUserAnalysisWorkflow`: returns the workflow
result together with the user-analysis store after the run. -/
def synthesizeUserAnalysisWorkflow (gstore : List GameDoc)
    (ustore : List UserAnalysisDoc) (username : String)
    (apiKey : Option String) (reply : SynthReply) (now : Nat) :
    SynthRunResult × List UserAnalysisDoc :=
  let c := checkGamesWithAnalysis gstore username
  if c.count < 3 then (.insufficientGames c.count, ustore)
  else if !c.isMultipleOfThree then (.notMultipleOfThree c.count, ustore)
  else
    match synthesizeUserAnalysisWithGemini apiKey reply with
    | .error (.fatal m) => (.fatalError m, ustore)
    | .error (.transient m) => (.fatalError m, ustore)
    | .ok synthesis =>
      (.success (jsLower username) c.count,
        saveUserAnalysisToMongoDB ustore username synthesis c.count c.games now)

/-! ## Correlation stage (`src/lib/workflows/lookalike-games.ts`) -/

/-- Embedding of the step `verifyTenGamesAnalyzed`: returns
`{ count, hasTenGames }`. -/
def verifyTenGamesAnalyzed (store : List GameDoc) (username : String) :
    Nat × Bool :=
  if invalidUsername username then (0, false)
  else
    let count := countAnalyzedDocs store (jsTrim (jsLower username))
    (count, 10 ≤ count)

/-- Embedding of the step `getUserSynthesis` (`findOne` by username). -/
def getUserSynthesis (ustore : List UserAnalysisDoc) (username : String) :
    Option UserAnalysisDoc :=
  if invalidUsername username then none
  else ustore.find? (fun d => d.username = jsTrim (jsLower username))

/-- Sort key for `getOriginalGames` (`analysis.analyzedAt` ascending;
a missing field sorts first, like Mongo's missing-before-present order). -/
def analyzedAtKey (d : GameDoc) : Nat :=
  (d.analysis.bind (fun a => a.analyzedAt)).getD 0

/-- Embedding of the step `getOriginalGames`: analyzed baseline documents,
oldest analysis first, at most 10. -/
def getOriginalGames (store : List GameDoc) (username : String) :
    List GameDoc :=
  if invalidUsername username then []
  else
    (stableSort (fun a b => analyzedAtKey a ≤ analyzedAtKey b)
      (store.filter (fun d =>
        d.username = jsTrim (jsLower username)
          && (d.analysis.bind (fun a => a.original) = some true)
          && hasFinalAnalysis d))).take 10

/-- Embedding of the step `getNonOriginalGames`: analyzed non-baseline
documents that have no look-alike verdict yet. -/
def getNonOriginalGames (store : List GameDoc) (username : String) :
    List GameDoc :=
  if invalidUsername username then []
  else
    store.filter (fun d =>
      d.username = jsTrim (jsLower username)
        && (d.analysis.bind (fun a => a.original) = some false
              || d.analysis.bind (fun a => a.original) = none)
        && hasFinalAnalysis d
        && (d.analysis.bind (fun a => a.isValidLookAlike) = none))

/-- Optional shape of the parsed look-alike JSON. -/
structure ParsedLookAlike where
  isValidLookAlike : Option Bool
  thematicMatch : Option String
  matchedOriginalGameIds : Option (List String)
  updatedAnalysis : Option String
  thematicConnections : Option String
deriving DecidableEq, Repr

/-- Look-alike oracle outcome: the call may throw (network error or
invalid response object), return text, and the text may or may not parse
as JSON. -/
inductive LookAlikeReply where
  | failure
  | reply (raw : String) (parsed : Option ParsedLookAlike)
deriving DecidableEq, Repr

/-- Validated verdict returned by `analyzeLookAlikeGame`. -/
structure LookAlikeVerdict where
  isValidLookAlike : Bool
  thematicMatch : String
  matchedOriginalGameIds : List String
  updatedAnalysis : String
  thematicConnections : String
deriving DecidableEq, Repr

/-- The candidate's stored short summary (`analysis.finalAnalysis || ""`). -/
def docFinalAnalysis (g : GameDoc) : String :=
  optStr (g.analysis.bind (fun a => a.finalAnalysis))

/-- Embedding of `getDefaultLookAlikeResponse`. -/
def getDefaultLookAlikeResponse (nonOriginalGame : GameDoc) : LookAlikeVerdict :=
  { isValidLookAlike := false
    thematicMatch := "Unable to analyze game due to missing data or API error"
    matchedOriginalGameIds := []
    updatedAnalysis := docFinalAnalysis nonOriginalGame
    thematicConnections := "" }

/-- Embedding of the step `analyzeLookAlikeGame`: every defensive check,
thrown error, empty response and parse failure falls back to
`getDefaultLookAlikeResponse`.  (The `originalGamesSummary.length === 0`
re-check cannot fire here because the model has no `null` entries, so the
earlier emptiness check covers it.) -/
def analyzeLookAlikeGame (username : String) (nonOriginalGame : GameDoc)
    (originalGames : List GameDoc) (userSynthesis : Option UserAnalysisDoc)
    (apiKey : Option String) (reply : LookAlikeReply) : LookAlikeVerdict :=
  if invalidUsername username then getDefaultLookAlikeResponse nonOriginalGame
  else if nonOriginalGame.gameId = "" then getDefaultLookAlikeResponse nonOriginalGame
  else if originalGames.isEmpty then getDefaultLookAlikeResponse nonOriginalGame
  else if (jsTrim (apiKey.getD "")).data.length = 0 then
    getDefaultLookAlikeResponse nonOriginalGame
  else
    match reply with
    | .failure => getDefaultLookAlikeResponse nonOriginalGame
    | .reply raw parsed =>
      if raw = "" || (jsTrim raw).data.length = 0 then
        getDefaultLookAlikeResponse nonOriginalGame
      else
        match parsed with
        | none => getDefaultLookAlikeResponse nonOriginalGame
        | some p =>
          { isValidLookAlike := p.isValidLookAlike = some true
            thematicMatch := optStr p.thematicMatch
            matchedOriginalGameIds :=
              (p.matchedOriginalGameIds.getD []).filter (fun i => i ≠ "")
            updatedAnalysis :=
              match p.updatedAnalysis with
              | some s => if s ≠ "" then s else docFinalAnalysis nonOriginalGame
              | none => docFinalAnalysis nonOriginalGame
            thematicConnections := optStr p.thematicConnections }

/-- A `GameAnalysis` with every field absent (the object Mongo creates
when a dotted `$set` touches a missing `analysis` subdocument). -/
def emptyGameAnalysis : GameAnalysis :=
  { finalAnalysis := none
    detailedAnalysis := none
    opening := none
    concepts := none
    isRepresentative := none
    original := none
    isValidLookAlike := none
    thematicMatch := none
    matchedOriginalGameIds := none
    thematicConnections := none
    analyzedAt := none }

/-- The dotted `$set` of `updateGameWithLookAlike` applied to one document
(`finalAnalysis` is overwritten only for a valid match with a nonempty
rewrite). -/
def setLookAlikeFields (v : LookAlikeVerdict) (now : Nat) (d : GameDoc) :
    GameDoc :=
  let a := d.analysis.getD emptyGameAnalysis
  { d with
      analysis := some
        { a with
            isValidLookAlike := some v.isValidLookAlike
            thematicMatch := some v.thematicMatch
            matchedOriginalGameIds :=
              some (v.matchedOriginalGameIds.filter (fun i => i ≠ ""))
            thematicConnections := some v.thematicConnections
            finalAnalysis :=
              if v.isValidLookAlike && v.updatedAnalysis ≠ "" then
                some v.updatedAnalysis
              else a.finalAnalysis }
      updatedAt := some now }

/-- Mongo `updateOne` without upsert: rewrite the first matching document,
or report that nothing matched. -/
def applyToFirstMatch (store : List GameDoc) (gid un : String)
    (f : GameDoc → GameDoc) : Option (List GameDoc) :=
  match store with
  | [] => none
  | d :: ds =>
    if d.gameId = gid ∧ d.username = un then some (f d :: ds)
    else (applyToFirstMatch ds gid un f).map (fun r => d :: r)

/-- Outcome of `updateGameWithLookAlike`. -/
inductive LookAlikeUpdateResult where
  | invalid (err : String)
  | notFound
  | ok (isValidLookAlike : Bool)
deriving DecidableEq, Repr

/-- Embedding of the step `updateGameWithLookAlike`. -/
def updateGameWithLookAlike (store : List GameDoc) (username gameId : String)
    (v : LookAlikeVerdict) (now : Nat) :
    LookAlikeUpdateResult × List GameDoc :=
  if invalidUsername username then (.invalid "Invalid username", store)
  else if gameId = "" || (jsTrim gameId).data.length = 0 then
    (.invalid "Invalid gameId", store)
  else
    match
      applyToFirstMatch store (jsTrim gameId) (jsTrim (jsLower username))
        (setLookAlikeFields v now)
    with
    | none => (.notFound, store)
    | some store' => (.ok v.isValidLookAlike, store')

/-- One row of the per-candidate result list aggregated by the workflow. -/
structure CandResult where
  gameId : String
  success : Bool
  isValidLookAlike : Option Bool
  error : Option String
deriving DecidableEq, Repr

/-- Embedding of the per-candidate loop of `lookAlikeGamesWorkflow`
(step 5): strictly one result row per candidate, no fail-fast, threading
the store through the per-candidate updates. -/
def processCandidates (username : String) (originalGames : List GameDoc)
    (userSynthesis : Option UserAnalysisDoc) (apiKey : Option String)
    (oracle : String → LookAlikeReply) (now : Nat) :
    List GameDoc → List GameDoc → List GameDoc × List CandResult
  | store, [] => (store, [])
  | store, g :: gs =>
    if g.gameId = "" then
      let p :=
        processCandidates username originalGames userSynthesis apiKey oracle now store gs
      (p.1,
        { gameId := "unknown", success := false, isValidLookAlike := none
          error := some "Invalid game data" } :: p.2)
    else
      let v :=
        analyzeLookAlikeGame username g originalGames userSynthesis apiKey
          (oracle g.gameId)
      let upd := updateGameWithLookAlike store username g.gameId v now
      let entry :=
        match upd.1 with
        | .ok valid =>
          { gameId := g.gameId, success := true, isValidLookAlike := some valid
            error := none }
        | .invalid e =>
          { gameId := g.gameId, success := false, isValidLookAlike := none
            error := some e }
        | .notFound =>
          { gameId := g.gameId, success := false, isValidLookAlike := none
            error := some "Game not found" }
      let p :=
        processCandidates username originalGames userSynthesis apiKey oracle now upd.2 gs
      (p.1, entry :: p.2)

/-- The bounded wait-and-retry loop at the top of `lookAlikeGamesWorkflow`
(`maxRetries = 5`, re-reading the count before each retry); the fuel
argument is the remaining retry budget `maxRetries - retryCount`. -/
def verifyRetry (storeAt : Nat → List GameDoc) (username : String) :
    Nat × Bool → Nat → Nat → (Nat × Bool) × Nat
  | vr, retryCount, 0 => (vr, retryCount)
  | vr, retryCount, fuel + 1 =>
    if vr.2 then (vr, retryCount)
    else
      verifyRetry storeAt username
        (verifyTenGamesAnalyzed (storeAt (retryCount + 1)) username)
        (retryCount + 1) fuel

/-- Terminal result of one `lookAlikeGamesWorkflow` run. -/
inductive LookAlikeResult where
  | insufficientGames (gamesAnalyzed : Nat)
  | insufficientOriginalGames (found : Nat)
  | noCandidates
  | processed (results : List CandResult) (validLookAlikes : Nat)
deriving DecidableEq, Repr

/-- Observable outcome of one `lookAlikeGamesWorkflow` run: result,
retry count and accumulated sleep of the verification loop, and the game
store after the per-candidate updates. -/
structure LookAlikeRun where
  result : LookAlikeResult
  retries : Nat
  sleepMs : Nat
  store : List GameDoc
deriving DecidableEq, Repr

/-- Embedding of `lookAlikeGamesWorkflow`.  The store is read again on
every verification retry, so it is passed as a sequence of snapshots
`storeAt i` (index = verification read number); the phase after a
successful verification works on the snapshot of the last read. -/
def lookAlikeGamesWorkflow (storeAt : Nat → List GameDoc)
    (ustore : List UserAnalysisDoc) (username : String)
    (apiKey : Option String) (oracle : String → LookAlikeReply) (now : Nat) :
    LookAlikeRun :=
  let loop :=
    verifyRetry storeAt username (verifyTenGamesAnalyzed (storeAt 0) username) 0 5
  let vr := loop.1
  let retries := loop.2
  let store := storeAt retries
  if !vr.2 then
    { result := .insufficientGames vr.1, retries := retries
      sleepMs := 30000 * retries, store := store }
  else
    let userSynthesis := getUserSynthesis ustore username
    let originalGames := getOriginalGames store username
    if originalGames.length < 10 then
      { result := .insufficientOriginalGames originalGames.length
        retries := retries, sleepMs := 30000 * retries, store := store }
    else
      let nonOriginalGames := getNonOriginalGames store username
      if nonOriginalGames.isEmpty then
        { result := .noCandidates, retries := retries
          sleepMs := 30000 * retries, store := store }
      else
        let p :=
          processCandidates username originalGames userSynthesis apiKey oracle
            now store nonOriginalGames
        { result :=
            .processed p.2
              ((p.2.filter (fun r =>
                r.success && r.isValidLookAlike = some true)).length)
          retries := retries, sleepMs := 30000 * retries, store := p.1 }

/-! ## Balanced game selection (`src/app/api/games/route.ts` and the
unnamed analyze route)

Both routes share one selection policy over the duration-sorted processed
game list; they differ only in the target and per-category quotas:
the games route uses target 10 with quotas (4, 4, 2), the analyze route
(an unnamed source file) uses target 25 with quotas (10, 10, 5). -/

/-- The fields of `ProcessedGame` that the selection logic reads. -/
structure PGame where
  id : String
  result : String
  duration : Nat
  ratingDiff : Nat
deriving DecidableEq, Repr

/-- The selection block shared by both routes, parameterized by the
target count and the per-category quotas. -/
def selectBalanced (targetCount winQuota lossQuota drawQuota : Nat)
    (processedGames : List PGame) : List PGame :=
  let wins := processedGames.filter (fun g => g.result = "win")
  let losses := processedGames.filter (fun g => g.result = "loss")
  let draws := processedGames.filter (fun g => g.result = "draw")
  let winsCount := min winQuota wins.length
  let lossesCount := min lossQuota losses.length
  let drawsCount := min drawQuota draws.length
  let selectedGames :=
    wins.take winsCount ++ losses.take lossesCount ++ draws.take drawsCount
  let selectedGameIds := selectedGames.map (fun g => g.id)
  let remaining :=
    processedGames.filter (fun g => !selectedGameIds.contains g.id)
  let needed := targetCount - selectedGames.length
  let selectedGames' :=
    if needed > 0 ∧ remaining.length > 0 then
      selectedGames ++ remaining.take needed
    else selectedGames
  selectedGames'.take targetCount

/-- Selection of the games route (`targetCount = 10`, split 4/4/2). -/
def selectGamesRoute (processedGames : List PGame) : List PGame :=
  selectBalanced 10 4 4 2 processedGames

/-- Selection of the analyze route (`targetCount = 25`, split 10/10/5),
from the unnamed source file that dispatches `analyzeGameWorkflow`. -/
def selectAnalyzeRoute (processedGames : List PGame) : List PGame :=
  selectBalanced 25 10 10 5 processedGames

/-! ## Derived store predicates and concrete fixtures -/

/-- A document with the given `(gameId, username)` key is in the store. -/
def keyPresent (store : List GameDoc) (gid un : String) : Bool :=
  store.any (fun d => d.gameId = gid && d.username = un)

/-- A document with the given key holds a look-alike verdict
(`analysis.isValidLookAlike` set): the terminal correlation state. -/
def hasVerdict (store : List GameDoc) (gid un : String) : Bool :=
  store.any (fun d =>
    d.gameId = gid && d.username = un
      && (d.analysis.bind (fun a => a.isValidLookAlike)).isSome)

/-- A string with no ASCII uppercase letter. -/
def noUppercase (s : String) : Bool :=
  s.data.all (fun c => !(65 ≤ c.toNat && c.toNat ≤ 90))

/-- Fixture: input of the analyze-game workflow for game `g1`. -/
def c3Input : GameAnalysisInput :=
  { gameId := "g1", username := "Alice", userColor := "white"
    game := c2Game "g1" }

/-- Fixture: an analyzed non-baseline document as `saveAnalysisToMongoDB`
stores it (`original = false`). -/
def c4Doc (gid : String) : GameDoc :=
  { saveAnalysisDoc (c2Game gid) "alice" c2Outcome "1. e4" false 7 with
      updatedAt := some 7 }

/-- Fixture: ten analyzed documents, none of them baseline. -/
def c4Store : List GameDoc :=
  (List.range 10).map (fun i => c4Doc ("g" ++ toString i))

/-- Fixture: three analyzed documents for the synthesis gate. -/
def c1Store : List GameDoc :=
  (List.range 3).map (fun i => c4Doc ("g" ++ toString i))

/-- Fixture: thirty processed games, ten per category. -/
def c8Games : List PGame :=
  (List.range 10).map (fun i => { id := "w" ++ toString i, result := "win", duration := 30 - i, ratingDiff := 0 })
    ++ (List.range 10).map (fun i => { id := "l" ++ toString i, result := "loss", duration := 20 - i, ratingDiff := 0 })
    ++ (List.range 10).map (fun i => { id := "d" ++ toString i, result := "draw", duration := 10 - i, ratingDiff := 0 })

/-! ## Helper lemmas -/

theorem upsertGame_idem (s : List GameDoc) (gid un : String) (doc : GameDoc)
    (h1 : doc.gameId = gid) (h2 : doc.username = un) :
    upsertGame (upsertGame s gid un doc) gid un doc = upsertGame s gid un doc := by
  induction s with
  | nil => simp [upsertGame, h1, h2]
  | cons d ds ih =>
    by_cases h : d.gameId = gid ∧ d.username = un
    · simp [upsertGame, h, h1, h2]
    · simp only [upsertGame, if_neg h]
      rw [ih]

theorem upsertGame_length (s : List GameDoc) (gid un : String) (doc : GameDoc) :
    (upsertGame s gid un doc).length =
      if s.any (fun d => d.gameId = gid && d.username = un) then s.length
      else s.length + 1 := by
  induction s with
  | nil => simp [upsertGame]
  | cons d ds ih =>
    by_cases h : d.gameId = gid ∧ d.username = un
    · simp [upsertGame, h]
    · simp only [upsertGame, if_neg h, List.any_cons, List.length_cons, ih]
      have : (decide (d.gameId = gid) && decide (d.username = un)) = false := by
        simp only [Bool.and_eq_false_iff, decide_eq_false_iff_not]
        tauto
      rw [this]
      simp only [Bool.false_or]
      split <;> rfl

/-- The claim C6: the per-item detail fetch fails fatally exactly on 404
and empty payloads and transiently (retried) on 429 and 5xx.  The code
throws `FatalError` on 429 and on every other non-ok status as well, so
the rate-limit case refutes the claim. -/
theorem c6_counterexample :
    fetchPGN "abc123" ⟨429, "x"⟩ = .error (.fatal "Rate limited by Lichess API")
      ∧ isTransientError (fetchPGN "abc123" ⟨429, "x"⟩) = false := by
  constructor <;> rfl

/-- C6 (amended): for a well-formed game id, `fetchPGN` never fails
transiently: 404, 429, every other non-ok status, and an empty body all
throw `FatalError` (no retry), and a non-empty 2xx body is returned. -/
theorem c6_amended (gameId : String) (resp : HttpResponse)
    (hg : (gameId = "" || (jsTrim gameId).data.length = 0) = false) :
    isTransientError (fetchPGN gameId resp) = false
      ∧ (resp.status = 404 →
          fetchPGN gameId resp = .error (.fatal ("Game not found: " ++ gameId)))
      ∧ (resp.status = 429 →
          fetchPGN gameId resp = .error (.fatal "Rate limited by Lichess API"))
      ∧ (500 ≤ resp.status →
          fetchPGN gameId resp =
            .error (.fatal ("Failed to fetch PGN: " ++ toString resp.status)))
      ∧ (httpOk resp = true → (jsTrim resp.body).data.length ≠ 0 →
          fetchPGN gameId resp = .ok resp.body) := by
  have hg1 : ¬gameId = "" := by
    intro he
    simp [he] at hg
  have hg2 : ¬(jsTrim gameId).data.length = 0 := by
    intro he
    simp [he] at hg
  have hg3 : ¬(jsTrim gameId).length = 0 := hg2
  refine ⟨?_, ?_, ?_, ?_, ?_⟩
  · unfold fetchPGN
    split
    · rfl
    · split
      · split
        · rfl
        · split <;> rfl
      · split <;> rfl
  · intro h
    have hok : httpOk resp = false := by
      simp [httpOk, h]
    simp [fetchPGN, hg1, hg3, hok, h]
  · intro h
    have hok : httpOk resp = false := by
      simp [httpOk, h]
    have h404 : resp.status ≠ 404 := by omega
    simp [fetchPGN, hg1, hg3, hok, h, h404]
  · intro h
    have hok : httpOk resp = false := by
      simp only [httpOk, Bool.and_eq_false_iff, decide_eq_false_iff_not]
      omega
    have h404 : resp.status ≠ 404 := by omega
    have h429 : resp.status ≠ 429 := by omega
    simp [fetchPGN, hg1, hg3, hok, h404, h429]
  · intro hok hbody
    have hb : resp.body ≠ "" := by
      intro he
      apply hbody
      rw [he]
      rfl
    have hbody' : ¬(jsTrim resp.body).length = 0 := hbody
    simp [fetchPGN, hg1, hg3, hok, hb, hbody']

theorem c6_amended_witness :
    (("abc123" : String) = "" || (jsTrim "abc123").data.length = 0) = false
      ∧ fetchPGN "abc123" ⟨503, "x"⟩ =
          .error (.fatal ("Failed to fetch PGN: " ++ toString 503)) :=
  ⟨by decide, (c6_amended "abc123" ⟨503, "x"⟩ (by decide)).2.2.2.1 (by decide)⟩

/-- The claim C7: an unparseable oracle response degrades to the raw text
and the persisted record still has a non-null summary field.  For the
empty raw response, the degraded step succeeds but `saveAnalysisToMongoDB`
passes `analysis.finalAnalysis || undefined`, so the stored document has
no summary field at all (and does not count as analyzed), refuting the
last part of the claim. -/
theorem c7_counterexample :
    analyzeGameWithGemini (some "k") (.unparsed "") =
        .ok { finalAnalysis := "", detailedAnalysis := none, concepts := []
              opening := none, isRepresentative := true }
      ∧ ((saveAnalysisToMongoDB [] (c2Game "g1") "alice"
            { finalAnalysis := "", detailedAnalysis := none, concepts := []
              opening := none, isRepresentative := true } "1. e4" true 0).length = 1
          ∧ countAnalyzedDocs
              (saveAnalysisToMongoDB [] (c2Game "g1") "alice"
                { finalAnalysis := "", detailedAnalysis := none, concepts := []
                  opening := none, isRepresentative := true } "1. e4" true 0)
              "alice" = 0) := by
  refine ⟨rfl, rfl, rfl⟩

/-- C7 (amended): every oracle response that fails to parse as JSON still
yields a successful step result with the raw text as the summary, empty
concepts and `isRepresentative = true`; and whenever the raw text is
nonempty, the persisted document carries it as a non-null summary field. -/
theorem c7_amended (k raw : String) :
    analyzeGameWithGemini (some k) (.unparsed raw) =
        .ok { finalAnalysis := raw, detailedAnalysis := none, concepts := []
              opening := none, isRepresentative := true }
      ∧ (raw ≠ "" → ∀ (game : RawGame) (uname pgn : String) (orig : Bool) (now : Nat),
          ((saveAnalysisDoc game uname
              { finalAnalysis := raw, detailedAnalysis := none, concepts := []
                opening := none, isRepresentative := true } pgn orig now).analysis.bind
            (fun a => a.finalAnalysis)) = some raw) := by
  constructor
  · rfl
  · intro h game uname pgn orig now
    simp [saveAnalysisDoc, createGameAnalysisDocument, strOrNone, h]

theorem c7_amended_witness :
    ("degraded text" : String) ≠ ""
      ∧ analyzeGameWithGemini (some "k") (.unparsed "degraded text") =
          .ok { finalAnalysis := "degraded text", detailedAnalysis := none
                concepts := [], opening := none, isRepresentative := true }
      ∧ ((saveAnalysisDoc (c2Game "g2") "Bob"
            { finalAnalysis := "degraded text", detailedAnalysis := none
              concepts := [], opening := none, isRepresentative := true }
            "1. d4" false 3).analysis.bind (fun a => a.finalAnalysis))
          = some "degraded text" :=
  ⟨by decide, (c7_amended "k" "degraded text").1,
    (c7_amended "k" "degraded text").2 (by decide) (c2Game "g2") "Bob" "1. d4" false 3⟩

/-- The claim C9: the persistence step of the analysis task is an upsert
keyed by `(username, gameId)`; running it twice with the same input gives
the same store as running it once, and a run never appends a second
document for an existing key. -/
theorem c9_theorem (store : List GameDoc) (game : RawGame) (uname : String)
    (analysis : AnalysisOutcome) (pgn : String) (orig : Bool) (now : Nat) :
    saveAnalysisToMongoDB
        (saveAnalysisToMongoDB store game uname analysis pgn orig now)
        game uname analysis pgn orig now
      = saveAnalysisToMongoDB store game uname analysis pgn orig now
    ∧ (saveAnalysisToMongoDB store game uname analysis pgn orig now).length =
        (if store.any (fun d => d.gameId = game.id && d.username = jsLower uname)
          then store.length else store.length + 1) := by
  constructor
  · exact upsertGame_idem store game.id (jsLower uname) _ rfl rfl
  · exact upsertGame_length store game.id (jsLower uname) _

/-- The claim C3: the analyzed-games count used for the baseline decision
is read after the task's own persist, so it counts the item itself.  On an
empty store the workflow decides with a count of 0 while the post-persist
count is 1, so the count used does not include the item: the read happens
before the persist (the code's step 3 runs before its step 5). -/
theorem c3_counterexample :
    (analyzeGameWorkflow [] c3Input ⟨200, "1. e4 e5"⟩ (some "k")
        (.unparsed "analysis text") 0).map
      (fun t => (t.gamesCountBefore, countAnalyzedDocs t.store (jsLower "Alice")))
      = .ok (0, 1) := by
  rfl

/-- C3 (amended): in every successful run of the analysis task, the
baseline count is read from the store as it was before the task's own
persist (so it does not include the item unless previously stored), the
`original` flag is set exactly when that pre-write count is below 10, and
the persist is applied to that same pre-read store. -/
theorem c3_amended (store : List GameDoc) (input : GameAnalysisInput)
    (resp : HttpResponse) (apiKey : Option String) (reply : GeminiReply)
    (now : Nat) (t : AnalyzeRunOutcome)
    (h : analyzeGameWorkflow store input resp apiKey reply now = .ok t) :
    t.gamesCountBefore = checkGamesCount store input.username
      ∧ t.original = decide (checkGamesCount store input.username < 10)
      ∧ ∃ pgn analysis,
          fetchPGN input.gameId resp = .ok pgn
            ∧ analyzeGameWithGemini apiKey reply = .ok analysis
            ∧ t.store =
                saveAnalysisToMongoDB store input.game input.username analysis
                  pgn t.original now := by
  cases hf : fetchPGN input.gameId resp with
  | error e =>
    rw [analyzeGameWorkflow, hf] at h
    simp [Bind.bind, Except.bind] at h
  | ok pgn =>
    cases ha : analyzeGameWithGemini apiKey reply with
    | error e =>
      rw [analyzeGameWorkflow, hf] at h
      simp only [Bind.bind, Except.bind] at h
      rw [ha] at h
      simp at h
    | ok analysis =>
      rw [analyzeGameWorkflow, hf] at h
      simp only [Bind.bind, Except.bind] at h
      rw [ha] at h
      simp only [Except.ok.injEq] at h
      subst h
      exact ⟨rfl, rfl, pgn, analysis, rfl, rfl, rfl⟩

theorem c3_amended_witness :
    (analyzeGameWorkflow c1Store c3Input ⟨200, "1. e4 c5"⟩ (some "k")
        (.unparsed "deep analysis") 4).isOk = true
      ∧ ∃ t, analyzeGameWorkflow c1Store c3Input ⟨200, "1. e4 c5"⟩ (some "k")
            (.unparsed "deep analysis") 4 = .ok t
          ∧ t.gamesCountBefore = checkGamesCount c1Store "Alice"
          ∧ t.original = decide (checkGamesCount c1Store "Alice" < 10) := by
  refine ⟨rfl, ?_⟩
  cases ht : analyzeGameWorkflow c1Store c3Input ⟨200, "1. e4 c5"⟩ (some "k")
      (.unparsed "deep analysis") 4 with
  | error e =>
    have hok : (analyzeGameWorkflow c1Store c3Input ⟨200, "1. e4 c5"⟩ (some "k")
        (.unparsed "deep analysis") 4).isOk = true := rfl
    rw [ht] at hok
    simp [Except.isOk, Except.toBool] at hok
  | ok t =>
    have h := c3_amended c1Store c3Input ⟨200, "1. e4 c5"⟩ (some "k")
      (.unparsed "deep analysis") 4 t ht
    exact ⟨t, rfl, h.1, h.2.1⟩

theorem upsertUser_idem (us : List UserAnalysisDoc) (un : String)
    (doc : UserAnalysisDoc) (h : doc.username = un) :
    upsertUser (upsertUser us un doc) un doc = upsertUser us un doc := by
  subst h
  induction us with
  | nil => simp [upsertUser]
  | cons d ds ih =>
    by_cases hd : d.username = doc.username
    · simp [upsertUser, hd]
    · simp only [upsertUser, if_neg hd]
      rw [ih]

theorem upsertUser_length (us : List UserAnalysisDoc) (un : String)
    (doc : UserAnalysisDoc) :
    (upsertUser us un doc).length =
      if us.any (fun d => d.username = un) then us.length else us.length + 1 := by
  induction us with
  | nil => simp [upsertUser]
  | cons d ds ih =>
    by_cases hd : d.username = un
    · simp [upsertUser, hd]
    · simp only [upsertUser, if_neg hd, List.any_cons, List.length_cons, ih]
      rw [decide_eq_false hd]
      simp only [Bool.false_or]
      split <;> rfl

/-- The synthesis oracle step never fails once the API key is present. -/
theorem synthesizeWithGemini_ok (k : String) (reply : SynthReply) :
    ∃ F, synthesizeUserAnalysisWithGemini (some k) reply = .ok F := by
  cases reply <;> exact ⟨_, rfl⟩

/-- The claim C1: the synthesis stage writes the subject profile iff the
analyzed count is at least 3 and a multiple of 3 at invocation time;
below 3 or off-multiple it exits gracefully without writing; a qualifying
run recomputes the profile and overwrites by upsert (idempotent replace,
never an append of a second profile). -/
theorem c1_theorem (gstore : List GameDoc) (ustore : List UserAnalysisDoc)
    (uname k : String) (reply : SynthReply) (now : Nat) :
    ((3 ≤ (checkGamesWithAnalysis gstore uname).count
        ∧ (checkGamesWithAnalysis gstore uname).count % 3 = 0) →
      ∃ F, synthesizeUserAnalysisWithGemini (some k) reply = .ok F
        ∧ (synthesizeUserAnalysisWorkflow gstore ustore uname (some k) reply now).1
            = .success (jsLower uname) (checkGamesWithAnalysis gstore uname).count
        ∧ (synthesizeUserAnalysisWorkflow gstore ustore uname (some k) reply now).2
            = upsertUser ustore (jsLower uname)
                (buildUserAnalysisDoc uname F
                  (checkGamesWithAnalysis gstore uname).count
                  (checkGamesWithAnalysis gstore uname).games now)
        ∧ (synthesizeUserAnalysisWorkflow gstore
              (synthesizeUserAnalysisWorkflow gstore ustore uname (some k) reply now).2
              uname (some k) reply now).2
            = (synthesizeUserAnalysisWorkflow gstore ustore uname (some k) reply now).2
        ∧ (synthesizeUserAnalysisWorkflow gstore ustore uname (some k) reply now).2.length
            = (if ustore.any (fun d => d.username = jsLower uname)
                then ustore.length else ustore.length + 1))
    ∧ (¬(3 ≤ (checkGamesWithAnalysis gstore uname).count
          ∧ (checkGamesWithAnalysis gstore uname).count % 3 = 0) →
        (synthesizeUserAnalysisWorkflow gstore ustore uname (some k) reply now).2 = ustore
          ∧ ((synthesizeUserAnalysisWorkflow gstore ustore uname (some k) reply now).1
                = .insufficientGames (checkGamesWithAnalysis gstore uname).count
              ∨ (synthesizeUserAnalysisWorkflow gstore ustore uname (some k) reply now).1
                = .notMultipleOfThree (checkGamesWithAnalysis gstore uname).count)) := by
  have hmul : (checkGamesWithAnalysis gstore uname).isMultipleOfThree =
      (decide (3 ≤ (checkGamesWithAnalysis gstore uname).count)
        && decide ((checkGamesWithAnalysis gstore uname).count % 3 = 0)) := rfl
  constructor
  · intro hP
    obtain ⟨F, hF⟩ := synthesizeWithGemini_ok k reply
    have hlt : ¬((checkGamesWithAnalysis gstore uname).count < 3) := by omega
    have hm : (checkGamesWithAnalysis gstore uname).isMultipleOfThree = true := by
      rw [hmul]
      simp [hP.1, hP.2]
    refine ⟨F, hF, ?_, ?_, ?_, ?_⟩
    · simp [synthesizeUserAnalysisWorkflow, hlt, hm, hF]
    · simp [synthesizeUserAnalysisWorkflow, hlt, hm, hF, saveUserAnalysisToMongoDB]
    · simp only [synthesizeUserAnalysisWorkflow, if_neg hlt, hm, Bool.not_true,
        Bool.false_eq_true, if_false, hF, saveUserAnalysisToMongoDB]
      exact upsertUser_idem ustore (jsLower uname) _ rfl
    · simp only [synthesizeUserAnalysisWorkflow, if_neg hlt, hm, Bool.not_true,
        Bool.false_eq_true, if_false, hF, saveUserAnalysisToMongoDB]
      exact upsertUser_length ustore (jsLower uname) _
  · intro hP
    by_cases hlt : (checkGamesWithAnalysis gstore uname).count < 3
    · constructor
      · simp [synthesizeUserAnalysisWorkflow, hlt]
      · left
        simp [synthesizeUserAnalysisWorkflow, hlt]
    · have hm : (checkGamesWithAnalysis gstore uname).isMultipleOfThree = false := by
        rw [hmul]
        have : ¬((checkGamesWithAnalysis gstore uname).count % 3 = 0) := by
          intro hmod
          exact hP ⟨by omega, hmod⟩
        simp [this]
      constructor
      · simp [synthesizeUserAnalysisWorkflow, hlt, hm]
      · right
        simp [synthesizeUserAnalysisWorkflow, hlt, hm]

theorem c1_theorem_witness :
    (3 ≤ (checkGamesWithAnalysis c1Store "Alice").count
        ∧ (checkGamesWithAnalysis c1Store "Alice").count % 3 = 0)
      ∧ ∃ F, synthesizeUserAnalysisWithGemini (some "k") (.unparsed "hi") = .ok F
          ∧ (synthesizeUserAnalysisWorkflow c1Store [] "Alice" (some "k")
              (.unparsed "hi") 5).1 = .success (jsLower "Alice")
              (checkGamesWithAnalysis c1Store "Alice").count :=
  ⟨by decide,
    match (c1_theorem c1Store [] "Alice" "k" (.unparsed "hi") 5).1 (by decide) with
    | ⟨F, hF, hres, _⟩ => ⟨F, hF, hres⟩⟩

/-- The claim C4: invoked while fewer than ten analyzed *baseline* items
are visible, the correlation stage waits with bounded backoff and then
returns an insufficient-games result.  The store below holds ten analyzed
items, none of them baseline: the verification gate (which counts all
analyzed items, ignoring the baseline flag) passes at once with zero
retries and no wait, and the workflow returns the distinct
insufficient-original-games result instead, refuting the claim. -/
theorem c4_counterexample :
    countBaselineDocs c4Store "alice" = 0
      ∧ lookAlikeGamesWorkflow (fun _ => c4Store) [] "alice" (some "k")
          (fun _ => .failure) 0 =
        { result := .insufficientOriginalGames 0, retries := 0, sleepMs := 0
          store := c4Store } := by
  constructor
  · rfl
  · rfl

theorem verifyRetry_le (storeAt : Nat → List GameDoc) (uname : String) :
    ∀ (fuel r : Nat) (vr : Nat × Bool),
      (verifyRetry storeAt uname vr r fuel).2 ≤ r + fuel := by
  intro fuel
  induction fuel with
  | zero => intro r vr; simp [verifyRetry]
  | succ n ih =>
    intro r vr
    rw [verifyRetry]
    by_cases h : vr.2 = true
    · simp only [h, if_true]
      omega
    · rw [Bool.not_eq_true] at h
      simp only [h, Bool.false_eq_true, if_false]
      have := ih (r + 1) (verifyTenGamesAnalyzed (storeAt (r + 1)) uname)
      omega

/-- C4 (amended): the correlation stage's wait loop is gated on the count
of all analyzed items (the baseline flag is not part of the query).  When
that count stays below 10 across the initial read and all five retries
(30 seconds apart, re-reading the count each time), the workflow gives up
with the insufficient-games result, having processed no candidate; and on
every input the loop performs at most five retries, so it terminates. -/
theorem c4_amended :
    (∀ (storeAt : Nat → List GameDoc) (ustore : List UserAnalysisDoc)
        (uname : String) (apiKey : Option String)
        (oracle : String → LookAlikeReply) (now : Nat),
      invalidUsername uname = false →
      (∀ i, i ≤ 5 → countAnalyzedDocs (storeAt i) (jsTrim (jsLower uname)) < 10) →
      lookAlikeGamesWorkflow storeAt ustore uname apiKey oracle now =
        { result := .insufficientGames
            (countAnalyzedDocs (storeAt 5) (jsTrim (jsLower uname)))
          retries := 5, sleepMs := 150000, store := storeAt 5 })
    ∧ (∀ (storeAt : Nat → List GameDoc) (ustore : List UserAnalysisDoc)
        (uname : String) (apiKey : Option String)
        (oracle : String → LookAlikeReply) (now : Nat),
      (lookAlikeGamesWorkflow storeAt ustore uname apiKey oracle now).retries ≤ 5) := by
  constructor
  · intro storeAt ustore uname apiKey oracle now hval h
    have hv : ∀ i, i ≤ 5 → verifyTenGamesAnalyzed (storeAt i) uname =
        (countAnalyzedDocs (storeAt i) (jsTrim (jsLower uname)), false) := by
      intro i hi
      unfold verifyTenGamesAnalyzed
      rw [hval]
      have hc := h i hi
      simp only [Bool.false_eq_true, if_false]
      have : decide (10 ≤ countAnalyzedDocs (storeAt i) (jsTrim (jsLower uname)))
          = false := by
        simp only [decide_eq_false_iff_not]
        omega
      rw [this]
    have hloop : verifyRetry storeAt uname
        (verifyTenGamesAnalyzed (storeAt 0) uname) 0 5 =
        ((countAnalyzedDocs (storeAt 5) (jsTrim (jsLower uname)), false), 5) := by
      rw [hv 0 (by omega)]
      rw [verifyRetry]
      simp only [Bool.false_eq_true, if_false]
      rw [hv 1 (by omega), verifyRetry]
      simp only [Bool.false_eq_true, if_false]
      rw [hv 2 (by omega), verifyRetry]
      simp only [Bool.false_eq_true, if_false]
      rw [hv 3 (by omega), verifyRetry]
      simp only [Bool.false_eq_true, if_false]
      rw [hv 4 (by omega), verifyRetry]
      simp only [Bool.false_eq_true, if_false]
      rw [hv 5 (by omega), verifyRetry]
    simp only [lookAlikeGamesWorkflow, hloop, Bool.not_false, if_true]
  · intro storeAt ustore uname apiKey oracle now
    have hb := verifyRetry_le storeAt uname 5 0
      (verifyTenGamesAnalyzed (storeAt 0) uname)
    simp only [lookAlikeGamesWorkflow]
    split
    · exact hb
    · split
      · exact hb
      · split
        · exact hb
        · exact hb

theorem c4_amended_witness :
    invalidUsername "bob" = false
      ∧ (∀ i, i ≤ 5 → countAnalyzedDocs ((fun _ => ([] : List GameDoc)) i)
          (jsTrim (jsLower "bob")) < 10)
      ∧ lookAlikeGamesWorkflow (fun _ => []) [] "bob" none (fun _ => .failure) 0 =
          { result := .insufficientGames 0, retries := 5, sleepMs := 150000
            store := [] } :=
  ⟨by decide,
    fun i _ => by
      show countAnalyzedDocs [] (jsTrim (jsLower "bob")) < 10
      decide,
    c4_amended.1 (fun _ => []) [] "bob" none (fun _ => .failure) 0 (by decide)
      (fun i _ => by
        show countAnalyzedDocs [] (jsTrim (jsLower "bob")) < 10
        decide)⟩

theorem string_eq_empty_of_data_nil (s : String) (h : s.data = []) : s = "" := by
  cases s
  simp only at h
  rw [h]

theorem setLookAlike_gameId (v : LookAlikeVerdict) (now : Nat) (d : GameDoc) :
    (setLookAlikeFields v now d).gameId = d.gameId := rfl

theorem setLookAlike_username (v : LookAlikeVerdict) (now : Nat) (d : GameDoc) :
    (setLookAlikeFields v now d).username = d.username := rfl

theorem setLookAlike_verdict (v : LookAlikeVerdict) (now : Nat) (d : GameDoc) :
    ((setLookAlikeFields v now d).analysis.bind
      (fun a => a.isValidLookAlike)).isSome = true := rfl

theorem applyToFirst_keyPresent (gid un : String) (v : LookAlikeVerdict)
    (now : Nat) :
    ∀ (store store' : List GameDoc),
      applyToFirstMatch store gid un (setLookAlikeFields v now) = some store' →
      ∀ gid' un', keyPresent store' gid' un' = keyPresent store gid' un' := by
  intro store
  induction store with
  | nil => intro store' h; simp [applyToFirstMatch] at h
  | cons d ds ih =>
    intro store' h gid' un'
    by_cases hd : d.gameId = gid ∧ d.username = un
    · rw [applyToFirstMatch, if_pos hd] at h
      cases h
      simp only [keyPresent, List.any_cons]
      rw [setLookAlike_gameId, setLookAlike_username]
    · rw [applyToFirstMatch, if_neg hd] at h
      cases hr : applyToFirstMatch ds gid un (setLookAlikeFields v now) with
      | none => rw [hr] at h; simp at h
      | some r =>
        rw [hr] at h
        simp only [Option.map_some', Option.some.injEq] at h
        subst h
        simp only [keyPresent, List.any_cons]
        have := ih r hr gid' un'
        simp only [keyPresent] at this
        rw [this]

theorem applyToFirst_isSome (gid un : String) (f : GameDoc → GameDoc) :
    ∀ store : List GameDoc, keyPresent store gid un = true →
      (applyToFirstMatch store gid un f).isSome = true := by
  intro store
  induction store with
  | nil => intro h; simp [keyPresent] at h
  | cons d ds ih =>
    intro h
    by_cases hd : d.gameId = gid ∧ d.username = un
    · rw [applyToFirstMatch, if_pos hd]
      rfl
    · rw [applyToFirstMatch, if_neg hd]
      simp only [keyPresent, List.any_cons, Bool.or_eq_true] at h
      rcases h with h | h
      · exfalso
        apply hd
        constructor
        · exact of_decide_eq_true (Bool.and_elim_left h)
        · exact of_decide_eq_true (Bool.and_elim_right h)
      · have hsome := ih h
        cases hr : applyToFirstMatch ds gid un f with
        | none => rw [hr] at hsome; simp at hsome
        | some r => simp [hr]

theorem applyToFirst_sets_verdict (gid un : String) (v : LookAlikeVerdict)
    (now : Nat) :
    ∀ (store store' : List GameDoc),
      applyToFirstMatch store gid un (setLookAlikeFields v now) = some store' →
      hasVerdict store' gid un = true := by
  intro store
  induction store with
  | nil => intro store' h; simp [applyToFirstMatch] at h
  | cons d ds ih =>
    intro store' h
    by_cases hd : d.gameId = gid ∧ d.username = un
    · rw [applyToFirstMatch, if_pos hd] at h
      cases h
      simp only [hasVerdict, List.any_cons, Bool.or_eq_true]
      left
      simp only [Bool.and_eq_true, decide_eq_true_eq]
      refine ⟨⟨?_, ?_⟩, setLookAlike_verdict v now d⟩
      · rw [setLookAlike_gameId, hd.1]
      · rw [setLookAlike_username, hd.2]
    · rw [applyToFirstMatch, if_neg hd] at h
      cases hr : applyToFirstMatch ds gid un (setLookAlikeFields v now) with
      | none => rw [hr] at h; simp at h
      | some r =>
        rw [hr] at h
        simp only [Option.map_some', Option.some.injEq] at h
        subst h
        simp only [hasVerdict, List.any_cons, Bool.or_eq_true]
        right
        have := ih r hr
        simpa [hasVerdict] using this

theorem applyToFirst_hasVerdict_mono (gid un : String) (v : LookAlikeVerdict)
    (now : Nat) :
    ∀ (store store' : List GameDoc),
      applyToFirstMatch store gid un (setLookAlikeFields v now) = some store' →
      ∀ gid' un', hasVerdict store gid' un' = true →
        hasVerdict store' gid' un' = true := by
  intro store
  induction store with
  | nil => intro store' h; simp [applyToFirstMatch] at h
  | cons d ds ih =>
    intro store' h gid' un' hv
    by_cases hd : d.gameId = gid ∧ d.username = un
    · rw [applyToFirstMatch, if_pos hd] at h
      cases h
      simp only [hasVerdict, List.any_cons, Bool.or_eq_true] at hv ⊢
      rcases hv with hv | hv
      · left
        simp only [Bool.and_eq_true, decide_eq_true_eq] at hv ⊢
        refine ⟨⟨?_, ?_⟩, setLookAlike_verdict v now d⟩
        · rw [setLookAlike_gameId, hv.1.1]
        · rw [setLookAlike_username, hv.1.2]
      · right
        exact hv
    · rw [applyToFirstMatch, if_neg hd] at h
      cases hr : applyToFirstMatch ds gid un (setLookAlikeFields v now) with
      | none => rw [hr] at h; simp at h
      | some r =>
        rw [hr] at h
        simp only [Option.map_some', Option.some.injEq] at h
        subst h
        simp only [hasVerdict, List.any_cons, Bool.or_eq_true] at hv ⊢
        rcases hv with hv | hv
        · left; exact hv
        · right
          have := ih r hr gid' un' (by simpa [hasVerdict] using hv)
          simpa [hasVerdict] using this

theorem update_keyPresent (store : List GameDoc) (uname gid : String)
    (v : LookAlikeVerdict) (now : Nat) (gid' un' : String) :
    keyPresent (updateGameWithLookAlike store uname gid v now).2 gid' un' =
      keyPresent store gid' un' := by
  unfold updateGameWithLookAlike
  split
  · rfl
  · split
    · rfl
    · cases hr : applyToFirstMatch store (jsTrim gid) (jsTrim (jsLower uname))
          (setLookAlikeFields v now) with
      | none => rfl
      | some r => exact applyToFirst_keyPresent _ _ v now store r hr gid' un'

theorem update_hasVerdict_mono (store : List GameDoc) (uname gid : String)
    (v : LookAlikeVerdict) (now : Nat) (gid' un' : String)
    (h : hasVerdict store gid' un' = true) :
    hasVerdict (updateGameWithLookAlike store uname gid v now).2 gid' un' = true := by
  unfold updateGameWithLookAlike
  split
  · exact h
  · split
    · exact h
    · cases hr : applyToFirstMatch store (jsTrim gid) (jsTrim (jsLower uname))
          (setLookAlikeFields v now) with
      | none => exact h
      | some r => exact applyToFirst_hasVerdict_mono _ _ v now store r hr gid' un' h

theorem update_sets_verdict (store : List GameDoc) (uname gid : String)
    (v : LookAlikeVerdict) (now : Nat)
    (hu : invalidUsername uname = false) (hgid : gid ≠ "")
    (htrim : jsTrim gid = gid)
    (hk : keyPresent store gid (jsTrim (jsLower uname)) = true) :
    hasVerdict (updateGameWithLookAlike store uname gid v now).2 gid
      (jsTrim (jsLower uname)) = true := by
  have hlen : ¬((jsTrim gid).data.length = 0) := by
    rw [htrim]
    intro hzero
    exact hgid (string_eq_empty_of_data_nil gid (List.length_eq_zero.mp hzero))
  unfold updateGameWithLookAlike
  rw [hu]
  simp only [Bool.false_eq_true, if_false]
  have hlen' : ¬((jsTrim gid).length = 0) := hlen
  have hcond : (decide (gid = "") || decide ((jsTrim gid).data.length = 0)) = false := by
    simp [hgid, hlen']
  rw [hcond]
  simp only [Bool.false_eq_true, if_false]
  rw [htrim]
  have hsome := applyToFirst_isSome gid (jsTrim (jsLower uname))
    (setLookAlikeFields v now) store hk
  cases hr : applyToFirstMatch store gid (jsTrim (jsLower uname))
      (setLookAlikeFields v now) with
  | none => rw [hr] at hsome; simp at hsome
  | some r =>
    simp only
    exact applyToFirst_sets_verdict gid (jsTrim (jsLower uname)) v now store r hr

theorem analyzeLookAlike_default (uname : String) (g : GameDoc)
    (originals : List GameDoc) (synth : Option UserAnalysisDoc)
    (apiKey : Option String) (reply : LookAlikeReply)
    (h : invalidUsername uname = true ∨ g.gameId = "" ∨ originals = []
      ∨ (jsTrim (apiKey.getD "")).data.length = 0 ∨ reply = .failure
      ∨ (∃ raw p, reply = .reply raw p
          ∧ ((jsTrim raw).data.length = 0 ∨ p = none))) :
    analyzeLookAlikeGame uname g originals synth apiKey reply =
      getDefaultLookAlikeResponse g := by
  rcases h with h | h | h | h | h | ⟨raw, p, hr, hp⟩
  · simp [analyzeLookAlikeGame, h]
  · unfold analyzeLookAlikeGame
    split <;> try rfl
  · subst h
    unfold analyzeLookAlikeGame
    split
    · rfl
    · split
      · rfl
      · rfl
  · unfold analyzeLookAlikeGame
    split
    · rfl
    · split
      · rfl
      · split
        · rfl
        · rfl
  · subst h
    unfold analyzeLookAlikeGame
    split
    · rfl
    · split
      · rfl
      · split
        · rfl
        · split
          · rfl
          · rfl
  · subst hr
    unfold analyzeLookAlikeGame
    split
    · rfl
    · split
      · rfl
      · split
        · rfl
        · split
          · rfl
          · rcases hp with hp | hp
            · simp [hp]
            · subst hp
              split
              · rfl
              · rename_i a b heq
                injection heq with h1 h2
                subst h1
                subst h2
                split
                · rfl
                · rfl

theorem processCandidates_gameIds (uname : String) (originals : List GameDoc)
    (synth : Option UserAnalysisDoc) (apiKey : Option String)
    (oracle : String → LookAlikeReply) (now : Nat) :
    ∀ (cands store : List GameDoc),
      ((processCandidates uname originals synth apiKey oracle now store cands).2).map
          (fun r => r.gameId)
        = cands.map (fun g => if g.gameId = "" then "unknown" else g.gameId) := by
  intro cands
  induction cands with
  | nil => intro store; rfl
  | cons g gs ih =>
    intro store
    by_cases h : g.gameId = ""
    · simp only [processCandidates, if_pos h, List.map_cons, ih, h, if_true]
    · simp only [processCandidates, if_neg h, List.map_cons, if_neg h]
      refine congrArg₂ _ ?_ (ih _)
      cases (updateGameWithLookAlike store uname g.gameId
          (analyzeLookAlikeGame uname g originals synth apiKey
            (oracle g.gameId)) now).1 <;> rfl

theorem processCandidates_hasVerdict_mono (uname : String)
    (originals : List GameDoc) (synth : Option UserAnalysisDoc)
    (apiKey : Option String) (oracle : String → LookAlikeReply) (now : Nat) :
    ∀ (cands store : List GameDoc) (gid' un' : String),
      hasVerdict store gid' un' = true →
      hasVerdict
          (processCandidates uname originals synth apiKey oracle now store cands).1
          gid' un' = true := by
  intro cands
  induction cands with
  | nil => intro store gid' un' h; exact h
  | cons g gs ih =>
    intro store gid' un' h
    by_cases hg : g.gameId = ""
    · simp only [processCandidates, if_pos hg]
      exact ih store gid' un' h
    · simp only [processCandidates, if_neg hg]
      exact ih _ gid' un'
        (update_hasVerdict_mono store uname g.gameId _ now gid' un' h)

theorem processCandidates_keyPresent (uname : String)
    (originals : List GameDoc) (synth : Option UserAnalysisDoc)
    (apiKey : Option String) (oracle : String → LookAlikeReply) (now : Nat) :
    ∀ (cands store : List GameDoc) (gid' un' : String),
      keyPresent
          (processCandidates uname originals synth apiKey oracle now store cands).1
          gid' un' = keyPresent store gid' un' := by
  intro cands
  induction cands with
  | nil => intro store gid' un'; rfl
  | cons g gs ih =>
    intro store gid' un'
    by_cases hg : g.gameId = ""
    · simp only [processCandidates, if_pos hg]
      exact ih store gid' un'
    · simp only [processCandidates, if_neg hg]
      rw [ih _ gid' un', update_keyPresent]

theorem processCandidates_terminal (uname : String) (originals : List GameDoc)
    (synth : Option UserAnalysisDoc) (apiKey : Option String)
    (oracle : String → LookAlikeReply) (now : Nat)
    (hu : invalidUsername uname = false) :
    ∀ (cands store : List GameDoc),
      (∀ g ∈ cands, g.gameId ≠ "" ∧ jsTrim g.gameId = g.gameId
        ∧ keyPresent store g.gameId (jsTrim (jsLower uname)) = true) →
      ∀ g ∈ cands,
        hasVerdict
            (processCandidates uname originals synth apiKey oracle now store cands).1
            g.gameId (jsTrim (jsLower uname)) = true := by
  intro cands
  induction cands with
  | nil => intro store _ g hg; cases hg
  | cons c cs ih =>
    intro store hyp g hg
    have hc := hyp c (List.mem_cons_self c cs)
    simp only [processCandidates, if_neg hc.1]
    rcases List.mem_cons.mp hg with hg | hg
    · subst hg
      apply processCandidates_hasVerdict_mono
      exact update_sets_verdict store uname g.gameId _ now hu hc.1 hc.2.1 hc.2.2
    · apply ih _ _ g hg
      intro g' hg'
      have h' := hyp g' (List.mem_cons_of_mem c hg')
      exact ⟨h'.1, h'.2.1, by rw [update_keyPresent]; exact h'.2.2⟩

/-- The claim C5: every per-candidate failure (invalid inputs, missing or
blank API key, thrown oracle call, empty response, unparseable response)
yields the deterministic fallback verdict — not a match, operational
failure rationale, no matched ids, the candidate's original summary kept —
and the stage still produces exactly one result row per candidate in
order, with each well-formed stored candidate ending in a terminal
correlation state (a persisted `isValidLookAlike` verdict). -/
theorem c5_theorem :
    (∀ (uname : String) (g : GameDoc) (originals : List GameDoc)
        (synth : Option UserAnalysisDoc) (apiKey : Option String)
        (reply : LookAlikeReply),
      (invalidUsername uname = true ∨ g.gameId = "" ∨ originals = []
          ∨ (jsTrim (apiKey.getD "")).data.length = 0 ∨ reply = .failure
          ∨ (∃ raw p, reply = .reply raw p
              ∧ ((jsTrim raw).data.length = 0 ∨ p = none))) →
      analyzeLookAlikeGame uname g originals synth apiKey reply =
        { isValidLookAlike := false
          thematicMatch := "Unable to analyze game due to missing data or API error"
          matchedOriginalGameIds := []
          updatedAnalysis := docFinalAnalysis g
          thematicConnections := "" })
    ∧ (∀ (uname : String) (originals : List GameDoc)
        (synth : Option UserAnalysisDoc) (apiKey : Option String)
        (oracle : String → LookAlikeReply) (now : Nat)
        (cands store : List GameDoc),
      ((processCandidates uname originals synth apiKey oracle now store cands).2).map
          (fun r => r.gameId)
        = cands.map (fun g => if g.gameId = "" then "unknown" else g.gameId))
    ∧ (∀ (uname : String) (originals : List GameDoc)
        (synth : Option UserAnalysisDoc) (apiKey : Option String)
        (oracle : String → LookAlikeReply) (now : Nat)
        (cands store : List GameDoc),
      invalidUsername uname = false →
      (∀ g ∈ cands, g.gameId ≠ "" ∧ jsTrim g.gameId = g.gameId
        ∧ keyPresent store g.gameId (jsTrim (jsLower uname)) = true) →
      ∀ g ∈ cands,
        hasVerdict
            (processCandidates uname originals synth apiKey oracle now store cands).1
            g.gameId (jsTrim (jsLower uname)) = true) := by
  refine ⟨?_, ?_, ?_⟩
  · intro uname g originals synth apiKey reply h
    exact analyzeLookAlike_default uname g originals synth apiKey reply h
  · intro uname originals synth apiKey oracle now cands store
    exact processCandidates_gameIds uname originals synth apiKey oracle now cands store
  · intro uname originals synth apiKey oracle now cands store hu hyp
    exact processCandidates_terminal uname originals synth apiKey oracle now hu
      cands store hyp

theorem c5_theorem_witness :
    ((LookAlikeReply.failure = LookAlikeReply.failure
        ∨ (∃ raw p, LookAlikeReply.failure = LookAlikeReply.reply raw p
            ∧ ((jsTrim raw).data.length = 0 ∨ p = none)))
      ∧ analyzeLookAlikeGame "alice" (c4Doc "g3") [c4Doc "g0"] none (some "k")
          .failure =
        { isValidLookAlike := false
          thematicMatch := "Unable to analyze game due to missing data or API error"
          matchedOriginalGameIds := []
          updatedAnalysis := docFinalAnalysis (c4Doc "g3")
          thematicConnections := "" })
    ∧ (invalidUsername "alice" = false
        ∧ hasVerdict
            (processCandidates "alice" [c4Doc "g0"] none (some "k")
              (fun _ => .failure) 9 c4Store [c4Doc "g3"]).1
            (c4Doc "g3").gameId (jsTrim (jsLower "alice")) = true) := by
  refine ⟨⟨Or.inl rfl, ?_⟩, by decide, ?_⟩
  · exact c5_theorem.1 "alice" (c4Doc "g3") [c4Doc "g0"] none (some "k") .failure
      (Or.inr (Or.inr (Or.inr (Or.inr (Or.inl rfl)))))
  · exact c5_theorem.2.2 "alice" [c4Doc "g0"] none (some "k") (fun _ => .failure) 9
      [c4Doc "g3"] c4Store (by decide)
      (by
        intro g hg
        rcases List.mem_singleton.mp hg with rfl
        exact ⟨by decide, by decide, by decide⟩)
      (c4Doc "g3") (List.mem_singleton.mpr rfl)

theorem set_append_length {α : Type} (l₁ l₂ : List α) (a : α) :
    (l₁ ++ l₂).set l₁.length a = l₁ ++ l₂.set 0 a := by
  induction l₁ with
  | nil => rfl
  | cons x xs ih => simp [List.set, ih]

theorem get_append_length {α : Type} (l₁ l₂ : List α) :
    (l₁ ++ l₂).get? l₁.length = l₂.get? 0 := by
  induction l₁ with
  | nil => rfl
  | cons x xs ih => simpa using ih

/-- Correspondence between the interleaving machine under the sequential
schedule and the plain left fold of whole-task steps. -/
theorem runActions_seq :
    ∀ (todo : List TaskSpec) (pre : List (TaskSpec × TaskPhase))
      (store : List GameDoc),
      runActions { store := store, tasks := pre ++ todo.map (fun t => (t, .toRead)) }
          (seqActsFrom pre.length todo.length)
        = some { store := seqStore store todo
                 tasks := pre ++ todo.map (fun t => (t, .finished)) } := by
  intro todo
  induction todo with
  | nil => intro pre store; simp [seqActsFrom, runActions, seqStore]
  | cons t ts ih =>
    intro pre store
    simp only [List.map_cons, List.length_cons, seqActsFrom]
    rw [runActions]
    have hget1 : (pre ++ (t, TaskPhase.toRead) :: ts.map (fun t => (t, TaskPhase.toRead))).get?
        pre.length = some (t, TaskPhase.toRead) := by
      rw [get_append_length]
      rfl
    simp only [applyAction, hget1]
    rw [set_append_length]
    simp only [List.set]
    rw [runActions]
    have hget2 : (pre ++ (t, TaskPhase.toWrite (checkGamesCount store t.username < 10)) ::
        ts.map (fun t => (t, TaskPhase.toRead))).get? pre.length =
        some (t, TaskPhase.toWrite (checkGamesCount store t.username < 10)) := by
      rw [get_append_length]
      rfl
    simp only [applyAction, hget2]
    rw [set_append_length]
    simp only [List.set]
    have hpre : (pre ++ [(t, TaskPhase.finished)]).length = pre.length + 1 := by
      simp
    have hih := ih (pre ++ [(t, TaskPhase.finished)])
      (saveAnalysisToMongoDB store t.game t.username t.analysis t.pgn
        (checkGamesCount store t.username < 10) t.now)
    rw [hpre] at hih
    simp only [List.append_assoc, List.singleton_append] at hih
    rw [hih]
    rfl

theorem countAnalyzed_append (s : List GameDoc) (d : GameDoc) (key : String) :
    countAnalyzedDocs (s ++ [d]) key =
      countAnalyzedDocs s key
        + (if (d.username = key && hasFinalAnalysis d) = true then 1 else 0) := by
  by_cases h : (d.username = key && hasFinalAnalysis d) = true
  · simp [countAnalyzedDocs, List.filter_append, List.filter, h]
  · simp [countAnalyzedDocs, List.filter_append, List.filter, h]

theorem countBaseline_append (s : List GameDoc) (d : GameDoc) (key : String) :
    countBaselineDocs (s ++ [d]) key =
      countBaselineDocs s key
        + (if (d.username = key && hasFinalAnalysis d
              && (d.analysis.bind (fun a => a.original) = some true)) = true
            then 1 else 0) := by
  by_cases h : (d.username = key && hasFinalAnalysis d
      && (d.analysis.bind (fun a => a.original) = some true)) = true
  · simp [countBaselineDocs, List.filter_append, List.filter, h]
  · simp [countBaselineDocs, List.filter_append, List.filter, h]

theorem upsertGame_fresh (gid un : String) (doc : GameDoc) :
    ∀ s : List GameDoc, (∀ d ∈ s, d.gameId ≠ gid) →
      upsertGame s gid un doc = s ++ [doc] := by
  intro s
  induction s with
  | nil => intro _; rfl
  | cons d ds ih =>
    intro h
    have hd : ¬(d.gameId = gid ∧ d.username = un) := by
      intro hc
      exact h d (List.mem_cons_self d ds) hc.1
    rw [upsertGame, if_neg hd, ih (fun d' hd' => h d' (List.mem_cons_of_mem d hd'))]
    rfl

/-- Invariant of sequential task completion: the analyzed-and-baseline
count always equals `min (analyzed count) 10`. -/
theorem seqStore_invariant (u : String) :
    ∀ (todo : List TaskSpec) (store : List GameDoc),
      (∀ t ∈ todo, t.username = u) →
      ((todo.map (fun t => t.game.id)).Nodup) →
      (∀ t ∈ todo, ∀ d ∈ store, d.gameId ≠ t.game.id) →
      countBaselineDocs store (jsLower u) =
        min (countAnalyzedDocs store (jsLower u)) 10 →
      countBaselineDocs (seqStore store todo) (jsLower u)
        = min (countAnalyzedDocs (seqStore store todo) (jsLower u)) 10 := by
  intro todo
  induction todo with
  | nil => intro store _ _ _ hinv; exact hinv
  | cons t ts ih =>
    intro store hu hids hfresh hinv
    have hu1 : t.username = u := hu t (List.mem_cons_self t ts)
    have hstep : seqTaskStep store t =
        store ++ [{ saveAnalysisDoc t.game t.username t.analysis t.pgn
          (decide (checkGamesCount store t.username < 10)) t.now with
            updatedAt := some t.now }] := by
      unfold seqTaskStep saveAnalysisToMongoDB
      exact upsertGame_fresh t.game.id (jsLower t.username) _ store
        (fun d hd => hfresh t (List.mem_cons_self t ts) d hd)
    show countBaselineDocs (seqStore (seqTaskStep store t) ts) (jsLower u)
        = min (countAnalyzedDocs (seqStore (seqTaskStep store t) ts) (jsLower u)) 10
    have hx := (by simpa using hids :
      (∀ x ∈ ts, ¬x.game.id = t.game.id) ∧ (ts.map (fun t => t.game.id)).Nodup)
    apply ih (seqTaskStep store t)
    · intro t' ht'
      exact hu t' (List.mem_cons_of_mem t ht')
    · exact hx.2
    · intro t' ht' d hd
      rw [hstep] at hd
      rcases List.mem_append.mp hd with hd | hd
      · exact hfresh t' (List.mem_cons_of_mem t ht') d hd
      · rcases List.mem_singleton.mp hd with rfl
        show t.game.id ≠ t'.game.id
        intro he
        exact hx.1 t' ht' he.symm
    · rw [hstep, hu1]
      set d : GameDoc := { saveAnalysisDoc t.game u t.analysis t.pgn
        (decide (checkGamesCount store u < 10)) t.now with
          updatedAt := some t.now } with hd
      rw [countAnalyzed_append, countBaseline_append, hinv]
      have husr : d.username = jsLower u := rfl
      have horig : d.analysis.bind (fun a => a.original) =
          some (decide (checkGamesCount store u < 10)) := rfl
      by_cases hfa : t.analysis.finalAnalysis = ""
      · have hhf : hasFinalAnalysis d = false := by
          simp [hd, hasFinalAnalysis, saveAnalysisDoc, createGameAnalysisDocument,
            strOrNone, hfa]
        rw [husr, hhf]
        simp
      · have hhf : hasFinalAnalysis d = true := by
          simp [hd, hasFinalAnalysis, saveAnalysisDoc, createGameAnalysisDocument,
            strOrNone, hfa]
        rw [husr, hhf, horig]
        have hcount : checkGamesCount store u =
            countAnalyzedDocs store (jsLower u) := rfl
        by_cases hlt : countAnalyzedDocs store (jsLower u) < 10
        · have : decide (checkGamesCount store u < 10) = true := by
            rw [hcount]
            exact decide_eq_true hlt
          rw [this]
          simp only [decide_eq_true_eq, Option.some.injEq]
          norm_num
          omega
        · have : decide (checkGamesCount store u < 10) = false := by
            rw [hcount]
            exact decide_eq_false hlt
          rw [this]
          simp only [decide_eq_true_eq, Option.some.injEq]
          norm_num
          omega

/-- The claim C2: in every reachable state, under any interleaving of
concurrently completing analysis tasks, at most 10 items are marked
baseline.  The schedule in which eleven tasks all read the count before
any of them persists is reachable, and it leaves eleven analyzed items
all flagged baseline — the read-decide-write race the code does not
guard against. -/
theorem c2_counterexample :
    (runActions (initState c2Tasks) c2Acts).map
        (fun s => (countAnalyzedDocs s.store "alice",
          countBaselineDocs s.store "alice"))
      = some (11, 11) := by
  decide

/-- C2 (amended): when tasks for one subject with distinct game ids
complete sequentially (each task's count read immediately followed by its
persist), the machine runs to completion and the analyzed-baseline count
always equals `min (analyzed count) 10`: it never exceeds 10, and it is
exactly 10 as soon as 10 items are analyzed.  Under concurrent
interleavings the bound can be exceeded. -/
theorem c2_amended (tasks : List TaskSpec) (u : String)
    (hu : ∀ t ∈ tasks, t.username = u)
    (hids : (tasks.map (fun t => t.game.id)).Nodup) :
    runActions (initState tasks) (seqActsFrom 0 tasks.length)
        = some { store := seqStore [] tasks
                 tasks := tasks.map (fun t => (t, .finished)) }
      ∧ countBaselineDocs (seqStore [] tasks) (jsLower u)
          = min (countAnalyzedDocs (seqStore [] tasks) (jsLower u)) 10
      ∧ countBaselineDocs (seqStore [] tasks) (jsLower u) ≤ 10
      ∧ (10 ≤ countAnalyzedDocs (seqStore [] tasks) (jsLower u) →
          countBaselineDocs (seqStore [] tasks) (jsLower u) = 10) := by
  have hinv := seqStore_invariant u tasks [] hu hids
    (fun t _ d hd => absurd hd (List.not_mem_nil d))
    (by simp [countBaselineDocs, countAnalyzedDocs])
  refine ⟨?_, hinv, by omega, by omega⟩
  have h := runActions_seq tasks [] []
  simpa [initState] using h

theorem c2_amended_witness :
    ((∀ t ∈ c2Tasks, t.username = "alice")
        ∧ (c2Tasks.map (fun t => t.game.id)).Nodup)
      ∧ countBaselineDocs (seqStore [] c2Tasks) (jsLower "alice")
          = min (countAnalyzedDocs (seqStore [] c2Tasks) (jsLower "alice")) 10 :=
  ⟨⟨by decide, by decide⟩,
    (c2_amended c2Tasks "alice" (by decide) (by decide)).2.1⟩

theorem length_filter_split {α : Type} (p : α → Bool) (l : List α) :
    (l.filter p).length + (l.filter (fun a => !p a)).length = l.length := by
  induction l with
  | nil => rfl
  | cons x xs ih =>
    by_cases h : p x = true
    · simp [List.filter_cons, h]
      omega
    · rw [Bool.not_eq_true] at h
      simp [List.filter_cons, h]
      omega

theorem contains_iff_mem (l : List String) (a : String) :
    l.contains a = true ↔ a ∈ l :=
  List.elem_iff

/-- Behaviour of the backfill-then-truncate tail of the selection block,
for any already-selected quota part `sel`. -/
theorem backfill_spec (T : Nat) (gs sel remaining sel' : List PGame)
    (needed : Nat)
    (hrem : remaining =
      gs.filter (fun g => !((sel.map (fun g => g.id)).contains g.id)))
    (hneed : needed = T - sel.length)
    (hsel' : sel' =
      if needed > 0 ∧ remaining.length > 0 then sel ++ remaining.take needed
      else sel)
    (hids : (gs.map (fun g => g.id)).Nodup)
    (hsub : sel ⊆ gs)
    (hselnd : (sel.map (fun g => g.id)).Nodup)
    (hlen : sel.length ≤ T) :
    ((sel'.take T).map (fun g => g.id)).Nodup
      ∧ (sel'.take T).length = min gs.length T := by
  have hgsnd : gs.Nodup := List.Nodup.of_map _ hids
  have hinj := List.inj_on_of_nodup_map hids
  have hselnodup : sel.Nodup := List.Nodup.of_map _ hselnd
  have hsellen : sel.length ≤ gs.length :=
    (hselnodup.subperm hsub).length_le
  have hfiltP : (gs.filter (fun g => (sel.map (fun g => g.id)).contains g.id)).length
      = sel.length := by
    apply Nat.le_antisymm
    · apply List.Subperm.length_le
      apply ((List.filter_sublist gs).nodup hgsnd).subperm
      intro g hg
      rcases List.mem_filter.mp hg with ⟨hggs, hP⟩
      rcases List.mem_map.mp ((contains_iff_mem _ _).mp hP) with ⟨g', hg', hid⟩
      have : g' = g := hinj (hsub hg') hggs hid
      exact this ▸ hg'
    · apply List.Subperm.length_le
      apply hselnodup.subperm
      intro g hg
      exact List.mem_filter.mpr ⟨hsub hg,
        (contains_iff_mem _ _).mpr (List.mem_map_of_mem _ hg)⟩
  have hremlen : remaining.length = gs.length - sel.length := by
    have hsplit := length_filter_split
      (fun g => (sel.map (fun g => g.id)).contains g.id) gs
    rw [hrem]
    omega
  have hremsub : remaining.Sublist gs := hrem ▸ List.filter_sublist gs
  have hnd' : (sel'.map (fun g => g.id)).Nodup := by
    rw [hsel']
    split
    · rw [List.map_append]
      rw [List.nodup_append]
      refine ⟨hselnd, ?_, ?_⟩
      · exact (((List.take_sublist needed remaining).trans hremsub).map _).nodup hids
      · intro x hx hx'
        rcases List.mem_map.mp hx' with ⟨g', hg', hid⟩
        have hg'r : g' ∈ remaining := List.take_subset needed remaining hg'
        rw [hrem] at hg'r
        rcases List.mem_filter.mp hg'r with ⟨_, hPneg⟩
        rw [Bool.not_eq_true'] at hPneg
        have : (sel.map (fun g => g.id)).contains g'.id = true :=
          (contains_iff_mem _ _).mpr (hid ▸ hx)
        rw [this] at hPneg
        cases hPneg
    · exact hselnd
  constructor
  · rw [List.map_take]
    exact (List.take_sublist T _).nodup hnd'
  · rw [List.length_take]
    rw [hsel']
    split
    · rename_i hcond
      rw [List.length_append, List.length_take]
      omega
    · rename_i hcond
      rw [not_and_or] at hcond
      omega

/-- Quota parts of the selection block: subset, distinct ids, bounded
length. -/
theorem quotaPart_spec (wq lq dq : Nat) (gs : List PGame)
    (hids : (gs.map (fun g => g.id)).Nodup) :
    ((gs.filter (fun g => g.result = "win")).take
          (min wq (gs.filter (fun g => g.result = "win")).length)
        ++ (gs.filter (fun g => g.result = "loss")).take
          (min lq (gs.filter (fun g => g.result = "loss")).length)
        ++ (gs.filter (fun g => g.result = "draw")).take
          (min dq (gs.filter (fun g => g.result = "draw")).length)) ⊆ gs
    ∧ (((gs.filter (fun g => g.result = "win")).take
          (min wq (gs.filter (fun g => g.result = "win")).length)
        ++ (gs.filter (fun g => g.result = "loss")).take
          (min lq (gs.filter (fun g => g.result = "loss")).length)
        ++ (gs.filter (fun g => g.result = "draw")).take
          (min dq (gs.filter (fun g => g.result = "draw")).length)).map
        (fun g => g.id)).Nodup
    ∧ ((gs.filter (fun g => g.result = "win")).take
          (min wq (gs.filter (fun g => g.result = "win")).length)
        ++ (gs.filter (fun g => g.result = "loss")).take
          (min lq (gs.filter (fun g => g.result = "loss")).length)
        ++ (gs.filter (fun g => g.result = "draw")).take
          (min dq (gs.filter (fun g => g.result = "draw")).length)).length
        ≤ wq + lq + dq := by
  have hsubpart : ∀ (p : PGame → Bool) (n : Nat),
      (gs.filter p).take n ⊆ gs :=
    fun p n => fun g hg =>
      (List.filter_sublist gs).subset (List.take_subset n _ hg)
  have hndpart : ∀ (p : PGame → Bool) (n : Nat),
      (((gs.filter p).take n).map (fun g => g.id)).Nodup :=
    fun p n =>
      (((List.take_sublist n _).trans (List.filter_sublist gs)).map _).nodup hids
  have hdisj : ∀ (p q : PGame → Bool) (a b : Nat),
      (∀ g : PGame, ¬(p g = true ∧ q g = true)) →
      List.Disjoint (((gs.filter p).take a).map (fun g => g.id))
        (((gs.filter q).take b).map (fun g => g.id)) := by
    intro p q a b hpq x hx hx'
    rcases List.mem_map.mp hx with ⟨g1, hg1, hid1⟩
    rcases List.mem_map.mp hx' with ⟨g2, hg2, hid2⟩
    rcases List.mem_filter.mp (List.take_subset a _ hg1) with ⟨hg1gs, hp1⟩
    rcases List.mem_filter.mp (List.take_subset b _ hg2) with ⟨hg2gs, hq2⟩
    have : g1 = g2 :=
      List.inj_on_of_nodup_map hids hg1gs hg2gs (by rw [hid1, hid2])
    exact hpq g1 ⟨hp1, this ▸ hq2⟩
  have hres : ∀ (s1 s2 : String) (g : PGame), s1 ≠ s2 →
      ¬((g.result = s1 : Bool) = true ∧ (g.result = s2 : Bool) = true) := by
    intro s1 s2 g hne hc
    rcases hc with ⟨h1, h2⟩
    rw [decide_eq_true_eq] at h1 h2
    exact hne (h1 ▸ h2)
  refine ⟨?_, ?_, ?_⟩
  · intro g hg
    rcases List.mem_append.mp hg with hg | hg
    · rcases List.mem_append.mp hg with hg | hg
      · exact hsubpart _ _ hg
      · exact hsubpart _ _ hg
    · exact hsubpart _ _ hg
  · rw [List.map_append, List.map_append, List.nodup_append, List.nodup_append]
    refine ⟨⟨hndpart _ _, hndpart _ _, hdisj _ _ _ _ (hres "win" "loss" · (by decide))⟩,
      hndpart _ _, ?_⟩
    intro x hx hx'
    rcases List.mem_append.mp hx with hx | hx
    · exact hdisj _ _ _ _ (hres "win" "draw" · (by decide)) hx hx'
    · exact hdisj _ _ _ _ (hres "loss" "draw" · (by decide)) hx hx'
  · rw [List.length_append, List.length_append, List.length_take,
      List.length_take, List.length_take]
    omega

theorem selectBalanced_spec (T wq lq dq : Nat) (gs : List PGame)
    (hq : wq + lq + dq ≤ T)
    (hids : (gs.map (fun g => g.id)).Nodup) :
    ((selectBalanced T wq lq dq gs).map (fun g => g.id)).Nodup
      ∧ (selectBalanced T wq lq dq gs).length = min gs.length T := by
  obtain ⟨hsub, hselnd, hlen⟩ := quotaPart_spec wq lq dq gs hids
  exact backfill_spec T gs _ _ _ _ rfl rfl rfl hids hsub hselnd
    (le_trans hlen hq)

theorem selectBalanced_quota (T wq lq dq : Nat) (gs : List PGame)
    (hsum : wq + lq + dq = T)
    (hW : wq ≤ (gs.filter (fun g => g.result = "win")).length)
    (hL : lq ≤ (gs.filter (fun g => g.result = "loss")).length)
    (hD : dq ≤ (gs.filter (fun g => g.result = "draw")).length) :
    selectBalanced T wq lq dq gs =
      (gs.filter (fun g => g.result = "win")).take wq
        ++ (gs.filter (fun g => g.result = "loss")).take lq
        ++ (gs.filter (fun g => g.result = "draw")).take dq := by
  have h1 : min wq (gs.filter (fun g => g.result = "win")).length = wq :=
    Nat.min_eq_left hW
  have h2 : min lq (gs.filter (fun g => g.result = "loss")).length = lq :=
    Nat.min_eq_left hL
  have h3 : min dq (gs.filter (fun g => g.result = "draw")).length = dq :=
    Nat.min_eq_left hD
  have hlen : ((gs.filter (fun g => g.result = "win")).take wq
      ++ (gs.filter (fun g => g.result = "loss")).take lq
      ++ (gs.filter (fun g => g.result = "draw")).take dq).length = T := by
    rw [List.length_append, List.length_append, List.length_take,
      List.length_take, List.length_take]
    omega
  simp only [selectBalanced, h1, h2, h3, hlen, Nat.sub_self, gt_iff_lt,
    Nat.lt_irrefl, false_and, if_false]
  exact List.take_of_length_le (le_of_eq hlen)

/-- The claim C8: for a raw list with at least 10 wins, 10 losses and
5 draws, selection with target 25 and quotas (10, 10, 5) — the analyze
route's selector — returns exactly the 25 quota games with no duplicate
ids; in general categories falling short are backfilled from the
remaining pool in order, and the output is shorter than 25 only when the
whole input is. -/
theorem c8_theorem (gs : List PGame)
    (hids : (gs.map (fun g => g.id)).Nodup) :
    ((selectAnalyzeRoute gs).map (fun g => g.id)).Nodup
      ∧ (selectAnalyzeRoute gs).length = min gs.length 25
      ∧ (10 ≤ (gs.filter (fun g => g.result = "win")).length →
          10 ≤ (gs.filter (fun g => g.result = "loss")).length →
          5 ≤ (gs.filter (fun g => g.result = "draw")).length →
          selectAnalyzeRoute gs =
            (gs.filter (fun g => g.result = "win")).take 10
              ++ (gs.filter (fun g => g.result = "loss")).take 10
              ++ (gs.filter (fun g => g.result = "draw")).take 5
            ∧ (selectAnalyzeRoute gs).length = 25) := by
  have h := selectBalanced_spec 25 10 10 5 gs (by omega) hids
  refine ⟨h.1, h.2, ?_⟩
  intro hW hL hD
  have he := selectBalanced_quota 25 10 10 5 gs rfl hW hL hD
  refine ⟨he, ?_⟩
  rw [show selectAnalyzeRoute gs = _ from he]
  rw [List.length_append, List.length_append, List.length_take,
    List.length_take, List.length_take]
  omega

theorem c8_theorem_witness :
    (c8Games.map (fun g => g.id)).Nodup
      ∧ (selectAnalyzeRoute c8Games).length = min c8Games.length 25
      ∧ (selectAnalyzeRoute c8Games).length = 25 :=
  ⟨by decide, (c8_theorem c8Games (by decide)).2.1,
    ((c8_theorem c8Games (by decide)).2.2 (by decide) (by decide) (by decide)).2⟩

theorem isWs_jsLowerChar (c : Char) : isWs (jsLowerChar c) = isWs c := by
  unfold isWs
  rw [toNat_jsLowerChar]
  split
  · rename_i hc
    have h1 : (decide (c.toNat + 32 = 32) || decide (c.toNat + 32 = 9)
        || decide (c.toNat + 32 = 10) || decide (c.toNat + 32 = 13)) = false := by
      simp only [Bool.or_eq_false_iff, decide_eq_false_iff_not]
      omega
    have h2 : (decide (c.toNat = 32) || decide (c.toNat = 9)
        || decide (c.toNat = 10) || decide (c.toNat = 13)) = false := by
      simp only [Bool.or_eq_false_iff, decide_eq_false_iff_not]
      omega
    rw [h1, h2]
  · rfl

theorem dropWhile_map_lower (l : List Char) :
    (l.map jsLowerChar).dropWhile isWs = (l.dropWhile isWs).map jsLowerChar := by
  induction l with
  | nil => rfl
  | cons x xs ih =>
    simp only [List.map_cons, List.dropWhile_cons, isWs_jsLowerChar]
    by_cases h : isWs x = true
    · rw [h]
      simpa using ih
    · rw [Bool.not_eq_true] at h
      rw [h]
      simp

theorem trimData_map_lower (l : List Char) :
    trimData (l.map jsLowerChar) = (trimData l).map jsLowerChar := by
  unfold trimData
  rw [dropWhile_map_lower, ← List.map_reverse, dropWhile_map_lower,
    ← List.map_reverse]

theorem data_eq_nil_iff (s : String) : s.data = [] ↔ s = "" := by
  constructor
  · exact string_eq_empty_of_data_nil s
  · intro h
    rw [h]

theorem jsLower_data (s : String) : (jsLower s).data = s.data.map jsLowerChar := rfl

theorem jsTrim_data (s : String) : (jsTrim s).data = trimData s.data := rfl

theorem empty_congr_of_lower (u1 u2 : String) (h : jsLower u1 = jsLower u2) :
    (u1 = "") ↔ (u2 = "") := by
  have hd : u1.data.map jsLowerChar = u2.data.map jsLowerChar := by
    have := congrArg String.data h
    rwa [jsLower_data, jsLower_data] at this
  have hlen : u1.data.length = u2.data.length := by
    have := congrArg List.length hd
    simpa using this
  constructor
  · intro he
    apply string_eq_empty_of_data_nil
    rw [he] at hlen
    exact List.length_eq_zero.mp (by simpa using hlen.symm)
  · intro he
    apply string_eq_empty_of_data_nil
    rw [he] at hlen
    exact List.length_eq_zero.mp (by simpa using hlen)

theorem trimLen_congr_of_lower (u1 u2 : String) (h : jsLower u1 = jsLower u2) :
    (jsTrim u1).data.length = (jsTrim u2).data.length := by
  have hd : u1.data.map jsLowerChar = u2.data.map jsLowerChar := by
    have := congrArg String.data h
    rwa [jsLower_data, jsLower_data] at this
  have h1 : (jsTrim u1).data.length = (trimData (u1.data.map jsLowerChar)).length := by
    rw [jsTrim_data, trimData_map_lower]
    simp
  have h2 : (jsTrim u2).data.length = (trimData (u2.data.map jsLowerChar)).length := by
    rw [jsTrim_data, trimData_map_lower]
    simp
  rw [h1, h2, hd]

theorem invalidUsername_congr (u1 u2 : String) (h : jsLower u1 = jsLower u2) :
    invalidUsername u1 = invalidUsername u2 := by
  unfold invalidUsername
  rw [decide_eq_decide.mpr (empty_congr_of_lower u1 u2 h),
    trimLen_congr_of_lower u1 u2 h]

theorem jsTrim_jsLower_congr (u1 u2 : String) (h : jsLower u1 = jsLower u2) :
    jsTrim (jsLower u1) = jsTrim (jsLower u2) := by
  rw [h]

theorem noUppercase_char_lower (c : Char) :
    (!(65 ≤ (jsLowerChar c).toNat && (jsLowerChar c).toNat ≤ 90)) = true := by
  rw [toNat_jsLowerChar]
  split
  · rename_i hc
    simp only [Bool.not_eq_true', Bool.and_eq_false_iff, decide_eq_false_iff_not]
    omega
  · rename_i hc
    simp only [Bool.not_eq_true', Bool.and_eq_false_iff, decide_eq_false_iff_not]
    omega

theorem noUppercase_jsLower (s : String) : noUppercase (jsLower s) = true := by
  unfold noUppercase
  rw [jsLower_data, List.all_eq_true]
  intro c hc
  rcases List.mem_map.mp hc with ⟨c', _, rfl⟩
  exact noUppercase_char_lower c'

/-- The claim C10: every store operation lowercases the username before
use, so two invocations whose usernames differ only in letter-case (equal
after lowercasing) produce identical store states, counts and documents,
and every document written carries a lowercase username field. -/
theorem c10_theorem :
    (∀ u1 u2 : String, jsLower u1 = jsLower u2 →
      (∀ store : List GameDoc, checkGamesCount store u1 = checkGamesCount store u2)
      ∧ (∀ store : List GameDoc,
          checkGamesWithAnalysis store u1 = checkGamesWithAnalysis store u2)
      ∧ (∀ store : List GameDoc,
          verifyTenGamesAnalyzed store u1 = verifyTenGamesAnalyzed store u2)
      ∧ (∀ ustore : List UserAnalysisDoc,
          getUserSynthesis ustore u1 = getUserSynthesis ustore u2)
      ∧ (∀ store : List GameDoc,
          getOriginalGames store u1 = getOriginalGames store u2)
      ∧ (∀ store : List GameDoc,
          getNonOriginalGames store u1 = getNonOriginalGames store u2)
      ∧ (∀ (store : List GameDoc) (game : RawGame) (analysis : AnalysisOutcome)
          (pgn : String) (orig : Bool) (now : Nat),
          saveAnalysisToMongoDB store game u1 analysis pgn orig now =
            saveAnalysisToMongoDB store game u2 analysis pgn orig now)
      ∧ (∀ (ustore : List UserAnalysisDoc) (synth : SynthesisFields)
          (n : Nat) (games : List GameDoc) (now : Nat),
          saveUserAnalysisToMongoDB ustore u1 synth n games now =
            saveUserAnalysisToMongoDB ustore u2 synth n games now)
      ∧ (∀ (store : List GameDoc) (gid : String) (v : LookAlikeVerdict) (now : Nat),
          updateGameWithLookAlike store u1 gid v now =
            updateGameWithLookAlike store u2 gid v now))
    ∧ (∀ (game : RawGame) (u : String) (analysis : Option AnalysisInput)
        (pgn : Option String) (now : Nat),
        noUppercase (createGameAnalysisDocument game u analysis pgn now).username = true)
    ∧ (∀ (u : String) (synth : SynthesisFields) (n : Nat)
        (games : List GameDoc) (now : Nat),
        noUppercase (buildUserAnalysisDoc u synth n games now).username = true) := by
  refine ⟨?_, ?_, ?_⟩
  · intro u1 u2 h
    refine ⟨?_, ?_, ?_, ?_, ?_, ?_, ?_, ?_, ?_⟩
    · intro store
      unfold checkGamesCount
      rw [h]
    · intro store
      unfold checkGamesWithAnalysis
      rw [h]
    · intro store
      unfold verifyTenGamesAnalyzed
      rw [invalidUsername_congr u1 u2 h, h]
    · intro ustore
      unfold getUserSynthesis
      rw [invalidUsername_congr u1 u2 h, h]
    · intro store
      unfold getOriginalGames
      rw [invalidUsername_congr u1 u2 h, h]
    · intro store
      unfold getNonOriginalGames
      rw [invalidUsername_congr u1 u2 h, h]
    · intro store game analysis pgn orig now
      simp only [saveAnalysisToMongoDB, saveAnalysisDoc,
        createGameAnalysisDocument, h]
    · intro ustore synth n games now
      simp only [saveUserAnalysisToMongoDB, buildUserAnalysisDoc, h]
    · intro store gid v now
      unfold updateGameWithLookAlike
      rw [invalidUsername_congr u1 u2 h, h]
  · intro game u analysis pgn now
    exact noUppercase_jsLower u
  · intro u synth n games now
    exact noUppercase_jsLower u

theorem c10_theorem_witness :
    jsLower "Alice" = jsLower "aLICE"
      ∧ checkGamesCount c1Store "Alice" = checkGamesCount c1Store "aLICE"
      ∧ verifyTenGamesAnalyzed c4Store "Alice" = verifyTenGamesAnalyzed c4Store "aLICE"
      ∧ noUppercase (createGameAnalysisDocument (c2Game "g9") "Alice" none none 0).username
          = true :=
  ⟨by decide,
    ((c10_theorem.1 "Alice" "aLICE" (by decide)).1 c1Store),
    ((c10_theorem.1 "Alice" "aLICE" (by decide)).2.2.1 c4Store),
    (c10_theorem.2.1 (c2Game "g9") "Alice" none none 0)⟩
